import Mathlib

/-!
# Portfolio page controller (`src/js/script.js`)

A shallow embedding of the page script: theme switching, the time-of-day
greeting, in-page navigation, the mobile menu, contact-form validation with
simulated submission, and the one-shot scroll animations.

JavaScript strings are sequences of UTF-16 code units; `length`, `trim`,
`===` and the regular expression of `isValidEmail` (which has no `u` flag)
all work on code units, so a string is modelled as the list of its code
units. A thrown `TypeError` is modelled with `Except`.
-/

namespace Portfolio

/-! ## Strings -/

/-- A JavaScript string: its UTF-16 code units. -/
abbrev JSString := List Nat

/-- UTF-16 code units of one Unicode scalar value. -/
def utf16Char (c : Char) : List Nat :=
  if c.toNat < 0x10000 then [c.toNat]
  else [0xD800 + (c.toNat - 0x10000) / 0x400, 0xDC00 + (c.toNat - 0x10000) % 0x400]

/-- The JavaScript string denoted by a string literal of the source. -/
def utf16 (s : String) : JSString :=
  s.toList.flatMap utf16Char

/-- Code units that are ECMAScript `WhiteSpace` or `LineTerminator`: the units
stripped by `String.prototype.trim` and matched by `\s`. -/
def isWhiteSpace (c : Nat) : Bool :=
  c == 0x09 || c == 0x0A || c == 0x0B || c == 0x0C || c == 0x0D || c == 0x20 ||
  c == 0xA0 || c == 0x1680 || (0x2000 ≤ c && c ≤ 0x200A) ||
  c == 0x2028 || c == 0x2029 || c == 0x202F || c == 0x205F || c == 0x3000 ||
  c == 0xFEFF

/-- The method `String.prototype.trim`. -/
def trim (s : JSString) : JSString :=
  ((s.dropWhile isWhiteSpace).reverse.dropWhile isWhiteSpace).reverse

/-- Truthiness of a string value: only the empty string is falsy. -/
def truthy (s : JSString) : Bool :=
  !s.isEmpty

/-- The method `String.prototype.startsWith`. -/
def startsWith (s p : JSString) : Bool :=
  p.isPrefixOf s

/-- The call `s.substring(n)`. -/
def substring (s : JSString) (n : Nat) : JSString :=
  s.drop n

/-- Errors thrown by the script: only property access on `null`. -/
inductive JSError where
  | typeError
  deriving DecidableEq, Repr

/-! ## Regular expressions

The fragment of regular-expression syntax used by `isValidEmail`: a pattern
anchored by `^` and `$` whose terms are single atoms or atoms under `+`. -/

/-- A regular-expression atom matching one code unit. -/
inductive Atom where
  /-- A literal code unit, such as `@` or `\.`. -/
  | char (c : Nat)
  /-- A negated class `[^\s...]` excluding white space and the listed units. -/
  | notSpaceNor (cs : List Nat)
  deriving DecidableEq, Repr

/-- Whether an atom matches a code unit. -/
def Atom.test : Atom → Nat → Bool
  | .char c, x => x == c
  | .notSpaceNor cs, x => !isWhiteSpace x && !cs.contains x

/-- A term of a pattern: an atom, or an atom repeated one or more times. -/
inductive Term where
  | one (a : Atom)
  | plus (a : Atom)
  deriving DecidableEq, Repr

/-- Backtracking match of the terms against the whole remaining input (the
pattern ends with `$`, so the input must be used up). -/
def matchTerms : List Term → JSString → Bool
  | [], s => s.isEmpty
  | _ :: _, [] => false
  | .one a :: ps, c :: s => a.test c && matchTerms ps s
  | .plus a :: ps, c :: s => a.test c && (matchTerms (.plus a :: ps) s || matchTerms ps s)

/-- The pattern `/^[^\s@]+@[^\s@]+\.[^\s@]+$/`. -/
def emailRegex : List Term :=
  [.plus (.notSpaceNor [0x40]), .one (.char 0x40), .plus (.notSpaceNor [0x40]),
   .one (.char 0x2E), .plus (.notSpaceNor [0x40])]

/-- Source `isValidEmail`: `emailRegex.test(email)`. -/
def isValidEmail (email : JSString) : Bool :=
  matchTerms emailRegex email

/-! ## The document

The nodes of the page in tree order; a node is referred to by its position.
Nodes are never created or removed by the script, and it never changes an
`id`, so a listener that captured a node keeps referring to the same one. -/

/-- The state of an element that the script reads or writes. -/
structure Element where
  /-- The `id` attribute; empty when the element has none. -/
  id : JSString := []
  /-- The tokens of the `class` attribute, as exposed by `classList`. -/
  classList : List JSString := []
  textContent : JSString := []
  /-- The `href` attribute of a link, `none` when missing. -/
  href : Option JSString := none
  /-- The `name` attribute of a form control; empty when missing. -/
  name : JSString := []
  /-- Current value of a form control. -/
  value : JSString := []
  /-- Value the control goes back to on `form.reset()`. -/
  defaultValue : JSString := []
  /-- Position of the form that owns this control. -/
  formOwner : Option Nat := none
  /-- Inline `style.borderColor`. -/
  borderColor : JSString := []
  /-- Inline `style.boxShadow`. -/
  boxShadow : JSString := []
  offsetHeight : Int := 0
  offsetTop : Int := 0
  deriving DecidableEq, Repr

/-- The document: its nodes and the `data-theme` attribute of the root. -/
structure Document where
  nodes : List Element := []
  /-- Attribute `data-theme` of `document.documentElement`. -/
  dataTheme : Option JSString := none
  deriving DecidableEq, Repr

/-- Position of the first element of the list with the given id. -/
def findId (i : JSString) : List Element → Option Nat
  | [] => none
  | e :: es => if e.id = i then some 0 else (findId i es).map (· + 1)

/-- Apply `f` to the element at position `n`. -/
def updateAt (n : Nat) (f : Element → Element) : List Element → List Element
  | [] => []
  | e :: es =>
    match n with
    | 0 => f e :: es
    | k + 1 => e :: updateAt k f es

/-- The call `document.getElementById(i)`: the first node in tree order with
that id, `none` for `null` (no element has the empty id). -/
def Document.getElementById (d : Document) (i : JSString) : Option Nat :=
  if i = [] then none else findId i d.nodes

/-- The element at a position. -/
def Document.node (d : Document) (n : Nat) : Option Element :=
  d.nodes[n]?

/-- Write to the element at position `n`. -/
def Document.update (d : Document) (n : Nat) (f : Element → Element) : Document :=
  { d with nodes := updateAt n f d.nodes }

/-- The call `classList.contains(c)`. -/
def classContains (cl : List JSString) (c : JSString) : Bool :=
  cl.contains c

/-- The call `classList.add(c)`: appends the token unless it is present. -/
def classAdd (cl : List JSString) (c : JSString) : List JSString :=
  if cl.contains c then cl else cl ++ [c]

/-- The call `classList.remove(c)`. -/
def classRemove (cl : List JSString) (c : JSString) : List JSString :=
  cl.filter (fun x => !(x == c))

/-- The call `classList.toggle(c)`: removes the token when present, adds it
otherwise. -/
def classToggle (cl : List JSString) (c : JSString) : List JSString :=
  if cl.contains c then classRemove cl c else cl ++ [c]

/-! ## Page state -/

/-- The origin's `localStorage`: `getItem` reads the first entry of a key. -/
abbrev Storage := List (JSString × JSString)

/-- The call `localStorage.getItem(k)`. -/
def Storage.getItem (st : Storage) (k : JSString) : Option JSString :=
  (st.find? (fun kv => kv.1 == k)).map (·.2)

/-- The call `localStorage.setItem(k, v)`. -/
def Storage.setItem (st : Storage) (k v : JSString) : Storage :=
  (k, v) :: st.filter (fun kv => !(kv.1 == k))

/-- The callbacks the script hands to `setTimeout`: both clear the status
element captured by the submit listener. -/
inductive Callback where
  | clearStatus (statusElement : Nat)
  deriving DecidableEq, Repr

/-- A pending `setTimeout` timer. -/
structure Timer where
  delay : Nat
  callback : Callback
  deriving DecidableEq, Repr

/-- Everything the script reads or writes besides the clock. -/
structure Page where
  document : Document := {}
  localStorage : Storage := []
  /-- Result of `matchMedia("(prefers-color-scheme: dark)").matches`. -/
  systemPrefersDark : Bool := false
  /-- Timers scheduled with `setTimeout` that have not fired yet. -/
  timers : List Timer := []
  /-- Targets currently observed by the intersection observer. -/
  observed : List Nat := []
  scrollY : Int := 0
  /-- The `top` of the last `window.scrollTo` request. -/
  scrollTarget : Option Int := none
  /-- Whether `preventDefault` was called on the event being handled. -/
  defaultPrevented : Bool := false
  deriving DecidableEq, Repr

/-! ## Theme -/

/-- The expression `a || b` for a string-or-null `a`: `a` when it is a
non-empty string, `b` otherwise. -/
def orElse (a : Option JSString) (b : JSString) : JSString :=
  match a with
  | some t => if truthy t then t else b
  | none => b

/-- Source `initTheme`. -/
def initTheme (p : Page) : Page :=
  let savedTheme := p.localStorage.getItem (utf16 "theme")
  let systemPrefersDark := p.systemPrefersDark
  let theme := orElse savedTheme (if systemPrefersDark then utf16 "dark" else utf16 "light")
  { p with document := { p.document with dataTheme := some theme } }

/-- Source `toggleTheme`. -/
def toggleTheme (p : Page) : Page :=
  let currentTheme := p.document.dataTheme
  let newTheme := if currentTheme = some (utf16 "dark") then utf16 "light" else utf16 "dark"
  { p with
    document := { p.document with dataTheme := some newTheme }
    localStorage := p.localStorage.setItem (utf16 "theme") newTheme }

/-! ## Greeting -/

/-- Source `displayGreeting`; `hour` is `new Date().getHours()`. -/
def displayGreeting (hour : Nat) (d : Document) : Document :=
  match d.getElementById (utf16 "greeting") with
  | none => d
  | some greetingElement =>
    let greeting :=
      if hour ≥ 5 ∧ hour < 12 then utf16 "Good morning! ☀️"
      else if hour ≥ 12 ∧ hour < 17 then utf16 "Good afternoon! 👋"
      else if hour ≥ 17 ∧ hour < 22 then utf16 "Good evening! 🌙"
      else utf16 "Hello there! ✨"
    d.update greetingElement (fun e => { e with textContent := greeting })

/-! ## Navigation -/

/-- The call `document.querySelectorAll` for a list of class selectors: the
nodes carrying one of the classes, in tree order. -/
def Document.querySelectorAll (d : Document) (classes : List JSString) : List Nat :=
  (List.range d.nodes.length).filter (fun n =>
    match d.node n with
    | some e => classes.any (fun c => classContains e.classList c)
    | none => false)

/-- Source `initSmoothScroll`: the links that get the click listener. -/
def initSmoothScroll (d : Document) : List Nat :=
  d.querySelectorAll [utf16 "nav-link"]

/-- The click listener of `initSmoothScroll`, with `this` the clicked link. -/
def navLinkClick (this : Nat) (p : Page) : Except JSError Page :=
  match p.document.node this with
  | none => .ok p
  | some link =>
    match link.href with
    | none => .error .typeError
    | some href =>
      if startsWith href (utf16 "#") then
        let p := { p with defaultPrevented := true }
        let targetId := substring href 1
        match p.document.getElementById targetId with
        | none => .ok p
        | some targetSection =>
          let navMenu := p.document.getElementById (utf16 "nav-menu")
          let navToggle := p.document.getElementById (utf16 "nav-toggle")
          let closed : Except JSError Document :=
            match navMenu with
            | none => .ok p.document
            | some menu =>
              if ((p.document.node menu).map (fun e => classContains e.classList (utf16 "active"))) = some true then
                let d := p.document.update menu
                  (fun e => { e with classList := classRemove e.classList (utf16 "active") })
                match navToggle with
                | none => .error .typeError
                | some toggle =>
                  .ok (d.update toggle
                    (fun e => { e with classList := classRemove e.classList (utf16 "active") }))
              else .ok p.document
          match closed with
          | .error err => .error err
          | .ok d =>
            match d.getElementById (utf16 "header") with
            | none => .error .typeError
            | some header =>
              let headerHeight := ((d.node header).map (·.offsetHeight)).getD 0
              let targetPosition := ((d.node targetSection).map (·.offsetTop)).getD 0 - headerHeight
              .ok { p with document := d, scrollTarget := some targetPosition }
      else .ok p

/-! ## Mobile menu -/

/-- Source `initMobileMenu`: the captured `navToggle` and `navMenu` when the
click listener is registered. -/
def initMobileMenu (d : Document) : Option (Nat × Nat) :=
  match d.getElementById (utf16 "nav-toggle"), d.getElementById (utf16 "nav-menu") with
  | some navToggle, some navMenu => some (navToggle, navMenu)
  | _, _ => none

/-- The click listener registered by `initMobileMenu`. -/
def mobileToggleClick (navToggle navMenu : Nat) (d : Document) : Document :=
  let d := d.update navMenu (fun e => { e with classList := classToggle e.classList (utf16 "active") })
  d.update navToggle (fun e => { e with classList := classToggle e.classList (utf16 "active") })

/-! ## Contact form -/

/-- Source `showError`. -/
def showError (fieldId message : JSString) (d : Document) : Document :=
  let errorElement := d.getElementById (fieldId ++ utf16 "-error")
  let inputElement := d.getElementById fieldId
  match errorElement, inputElement with
  | some err, some input =>
    let d := d.update err (fun e => { e with textContent := message })
    d.update input (fun e => { e with borderColor := utf16 "#ef4444" })
  | _, _ => d

/-- Source `clearError`. -/
def clearError (fieldId : JSString) (d : Document) : Document :=
  let errorElement := d.getElementById (fieldId ++ utf16 "-error")
  let inputElement := d.getElementById fieldId
  match errorElement, inputElement with
  | some err, some input =>
    let d := d.update err (fun e => { e with textContent := utf16 "" })
    d.update input (fun e => { e with borderColor := utf16 "" })
  | _, _ => d

/-- A `FormData` object whose entries are strings. -/
abbrev FormData := List (JSString × JSString)

/-- The call `formData.get(k)`: the value of the first entry named `k`. -/
def FormData.get (fd : FormData) (k : JSString) : Option JSString :=
  (fd.find? (fun kv => kv.1 == k)).map (·.2)

/-- The expression `formData.get(k).trim()`; calling `trim` on `null` throws. -/
def getTrimmed (fd : FormData) (k : JSString) : Except JSError JSString :=
  match fd.get k with
  | none => .error .typeError
  | some v => .ok (trim v)

/-- Source `validateForm`: the returned flag and the document after it. -/
def validateForm (formData : FormData) (d : Document) : Except JSError (Bool × Document) :=
  let isValid := true
  let d := clearError (utf16 "name") d
  let d := clearError (utf16 "email") d
  let d := clearError (utf16 "message") d
  match getTrimmed formData (utf16 "name") with
  | .error err => .error err
  | .ok name =>
    let r : Bool × Document :=
      if name = utf16 "" then (false, showError (utf16 "name") (utf16 "Name is required") d)
      else if name.length < 2 then
        (false, showError (utf16 "name") (utf16 "Name must be at least 2 characters") d)
      else (isValid, d)
    match getTrimmed formData (utf16 "email") with
    | .error err => .error err
    | .ok email =>
      let r : Bool × Document :=
        if email = utf16 "" then (false, showError (utf16 "email") (utf16 "Email is required") r.2)
        else if !isValidEmail email then
          (false, showError (utf16 "email") (utf16 "Please enter a valid email address") r.2)
        else r
      match getTrimmed formData (utf16 "message") with
      | .error err => .error err
      | .ok message =>
        let r : Bool × Document :=
          if message = utf16 "" then
            (false, showError (utf16 "message") (utf16 "Message is required") r.2)
          else if message.length < 10 then
            (false, showError (utf16 "message") (utf16 "Message must be at least 10 characters") r.2)
          else r
        .ok r

/-- The constructor call `new FormData(form)`: one entry per control owned by the form
that has a name, in tree order. -/
def newFormData (d : Document) (form : Nat) : FormData :=
  d.nodes.filterMap (fun e =>
    if e.formOwner = some form ∧ e.name ≠ [] then some (e.name, e.value) else none)

/-- The call `form.reset()`: every control of the form goes back to its
default value. -/
def formReset (d : Document) (form : Nat) : Document :=
  { d with nodes := d.nodes.map (fun e =>
      if e.formOwner = some form then { e with value := e.defaultValue } else e) }

/-- The two assignments `el.textContent = text; el.className = ...`, the
class name given by its tokens. -/
def setStatus (text : JSString) (className : List JSString) (e : Element) : Element :=
  { e with textContent := text, classList := className }

/-- Run a timer callback. -/
def Callback.run : Callback → Document → Document
  | .clearStatus statusElement, d =>
    d.update statusElement (setStatus (utf16 "") [utf16 "form-status"])

/-- The nodes captured by `initContactForm` when it registers listeners. -/
structure ContactListeners where
  form : Nat
  statusElement : Nat
  nameInput : Option Nat
  emailInput : Option Nat
  messageInput : Option Nat
  deriving DecidableEq, Repr

/-- Source `initContactForm`: `none` when the form or the status element is
missing, so that no listener is registered. -/
def initContactForm (d : Document) : Option ContactListeners :=
  match d.getElementById (utf16 "contact-form"), d.getElementById (utf16 "form-status") with
  | some form, some statusElement =>
    some { form := form, statusElement := statusElement,
           nameInput := d.getElementById (utf16 "name"),
           emailInput := d.getElementById (utf16 "email"),
           messageInput := d.getElementById (utf16 "message") }
  | _, _ => none

/-- The submit listener of `initContactForm`. -/
def submitHandler (form statusElement : Nat) (p : Page) : Except JSError Page :=
  let p := { p with defaultPrevented := true }
  let formData := newFormData p.document form
  match validateForm formData p.document with
  | .error err => .error err
  | .ok (true, d) =>
    let d := d.update statusElement
      (setStatus (utf16 "Message sent successfully! ✓") [utf16 "form-status", utf16 "success"])
    let d := formReset d form
    .ok { p with document := d, timers := p.timers ++ [⟨5000, .clearStatus statusElement⟩] }
  | .ok (false, d) =>
    let d := d.update statusElement
      (setStatus (utf16 "Please fix the errors above") [utf16 "form-status", utf16 "error"])
    .ok { p with document := d, timers := p.timers ++ [⟨5000, .clearStatus statusElement⟩] }

/-- The timer at the head of the queue fires. -/
def fireTimer (p : Page) : Page :=
  match p.timers with
  | [] => p
  | t :: ts => { p with document := t.callback.run p.document, timers := ts }

/-- The value read by `this.value.trim()` in a blur listener. -/
def thisValue (d : Document) (this : Nat) : JSString :=
  ((d.node this).map (·.value)).getD []

/-- The blur listener of the name input. -/
def nameBlur (this : Nat) (d : Document) : Document :=
  let value := trim (thisValue d this)
  if truthy value && value.length < 2 then
    showError (utf16 "name") (utf16 "Name must be at least 2 characters") d
  else clearError (utf16 "name") d

/-- The blur listener of the email input. -/
def emailBlur (this : Nat) (d : Document) : Document :=
  let value := trim (thisValue d this)
  if truthy value && !isValidEmail value then
    showError (utf16 "email") (utf16 "Please enter a valid email address") d
  else clearError (utf16 "email") d

/-- The blur listener of the message input. -/
def messageBlur (this : Nat) (d : Document) : Document :=
  let value := trim (thisValue d this)
  if truthy value && value.length < 10 then
    showError (utf16 "message") (utf16 "Message must be at least 10 characters") d
  else clearError (utf16 "message") d

/-! ## Scroll animations -/

/-- An `IntersectionObserverEntry`. -/
structure Entry where
  target : Nat
  isIntersecting : Bool
  deriving DecidableEq, Repr

/-- The body of the observer callback for one entry. -/
def observeEntry (p : Page) (entry : Entry) : Page :=
  if entry.isIntersecting then
    { p with
      document := p.document.update entry.target
        (fun e => { e with classList := classAdd e.classList (utf16 "fade-in") })
      observed := p.observed.filter (fun t => !(t == entry.target)) }
  else p

/-- The observer callback of `initScrollAnimations`: `entries.forEach`. -/
def observerCallback (entries : List Entry) (p : Page) : Page :=
  entries.foldl observeEntry p

/-- Source `initScrollAnimations`: every matching element is observed. -/
def initScrollAnimations (p : Page) : Page :=
  let elementsToAnimate := p.document.querySelectorAll
    [utf16 "about-card", utf16 "skill-card", utf16 "project-card", utf16 "contact-form"]
  { p with observed := elementsToAnimate }

/-! ## Header shadow -/

/-- Source `initHeaderScroll`: the captured header when the scroll listener
is registered. -/
def initHeaderScroll (d : Document) : Option Nat :=
  d.getElementById (utf16 "header")

/-- The scroll listener of `initHeaderScroll`. -/
def headerScroll (header : Nat) (p : Page) : Page :=
  let boxShadow :=
    if p.scrollY > 50 then utf16 "0 4px 6px -1px rgba(0, 0, 0, 0.1)" else utf16 "none"
  { p with document := p.document.update header (fun e => { e with boxShadow := boxShadow }) }

/-! ## Observations used in the statements -/

/-- The element found by `getElementById`, if any. -/
def Document.elem (d : Document) (i : JSString) : Option Element :=
  (d.getElementById i).bind d.node

/-- Text of the element with the given id. -/
def Document.text (d : Document) (i : JSString) : Option JSString :=
  (d.elem i).map (·.textContent)

/-- Text of the error element paired with a field. -/
def errorText (d : Document) (fieldId : JSString) : Option JSString :=
  d.text (fieldId ++ utf16 "-error")

/-! ## Definitions used in the statements

The rules of the specification, the observations made on a page, and the
sample pages on which the theorems are instantiated. -/

/-- A page whose only element is the greeting element. -/
def greetingDoc : Document :=
  { nodes := [{ id := utf16 "greeting" }] }

/-- The shape of an address as the specification words it: no white space,
exactly one `@`, something before the `@`, and after it a `.` that is neither
the first nor the last code unit of that part. -/
def EmailShape (s : JSString) : Prop :=
  (∀ c ∈ s, isWhiteSpace c = false) ∧ s.count 0x40 = 1 ∧
  ∃ l d, s = l ++ 0x40 :: d ∧ l ≠ [] ∧ ∃ a b, d = a ++ 0x2E :: b ∧ a ≠ [] ∧ b ≠ []

/-- The name rule in the specification's words, on the trimmed value. -/
def nameRule (v : JSString) : JSString :=
  if v = utf16 "" then utf16 "Name is required"
  else if v.length < 2 then utf16 "Name must be at least 2 characters"
  else utf16 ""

/-- The email rule in the specification's words, on the trimmed value. -/
def emailRule (v : JSString) : JSString :=
  if v = utf16 "" then utf16 "Email is required"
  else if isValidEmail v = false then utf16 "Please enter a valid email address"
  else utf16 ""

/-- The message rule in the specification's words, on the trimmed value. -/
def messageRule (v : JSString) : JSString :=
  if v = utf16 "" then utf16 "Message is required"
  else if v.length < 10 then utf16 "Message must be at least 10 characters"
  else utf16 ""

/-- The input of a field and its error element are both in the document. -/
def FieldPresent (d : Document) (fieldId : JSString) : Prop :=
  (d.getElementById fieldId).isSome = true ∧
  (d.getElementById (fieldId ++ utf16 "-error")).isSome = true

instance (d : Document) (fieldId : JSString) : Decidable (FieldPresent d fieldId) := by
  unfold FieldPresent
  exact inferInstance

/-- One validation block of `validateForm`, seen through the message it
selects: an empty message leaves the state alone, any other message is shown
and clears the flag. -/
def validationStep (f msg : JSString) (r : Bool × Document) : Bool × Document :=
  if msg = utf16 "" then r else (false, showError f msg r.2)

/-- The fields of an element that `showError` and `clearError` never write. -/
def Element.core (e : Element) : Element :=
  { e with textContent := [], borderColor := [] }

/-- The three clearings of `validateForm` followed by its three validation
blocks, as a function of the messages the blocks select. -/
def validated (d : Document) (a b c : JSString) : Bool × Document :=
  validationStep (utf16 "message") c
    (validationStep (utf16 "email") b
      (validationStep (utf16 "name") a
        (true, clearError (utf16 "message")
          (clearError (utf16 "email") (clearError (utf16 "name") d)))))

/-- A page with the contact form, its status element, the three fields and
their error elements. -/
def contactDoc (name email message : JSString) : Document :=
  { nodes := [
      { id := utf16 "contact-form" },
      { id := utf16 "name", name := utf16 "name", value := name, formOwner := some 0 },
      { id := utf16 "name-error" },
      { id := utf16 "email", name := utf16 "email", value := email, formOwner := some 0 },
      { id := utf16 "email-error" },
      { id := utf16 "message", name := utf16 "message", value := message, formOwner := some 0 },
      { id := utf16 "message-error" },
      { id := utf16 "form-status" }] }

/-- A page with the toggle button and an open menu panel. -/
def menuDoc : Document :=
  { nodes := [
      { id := utf16 "nav-toggle", classList := [utf16 "nav-toggle"] },
      { id := utf16 "nav-menu", classList := [utf16 "active", utf16 "nav-menu"] }] }

/-- Whether a node carries the `"fade-in"` class. -/
def hasFadeIn (p : Page) (t : Nat) : Bool :=
  match p.document.node t with
  | some e => classContains e.classList (utf16 "fade-in")
  | none => false

/-- The page after a sequence of callback invocations. -/
def runBatches (batches : List (List Entry)) (p : Page) : Page :=
  batches.foldl (fun q entries => observerCallback entries q) p

/-- The pages before, between and after a sequence of callback invocations. -/
def pageStates : List (List Entry) → Page → List Page
  | [], p => [p]
  | entries :: rest, p => p :: pageStates rest (observerCallback entries p)

/-- How often, along a list of successive pages, the `"fade-in"` class of `t`
goes from absent to present. -/
def additions (t : Nat) : List Page → Nat
  | a :: b :: rest =>
    (if !hasFadeIn a t && hasFadeIn b t then 1 else 0) + additions t (b :: rest)
  | _ => 0

/-- How often the callback runs `classList.add("fade-in")` on `t` over the
batches: once per intersecting entry of `t`. -/
def addCalls (t : Nat) : List (List Entry) → Nat
  | [] => 0
  | entries :: rest =>
    entries.countP (fun e => e.isIntersecting && e.target == t) + addCalls t rest

/-- The batches an observer can deliver from a page: every batch reports only
targets observed when it is delivered, each at most once. -/
def deliverable : Page → List (List Entry) → Bool
  | _, [] => true
  | p, entries :: rest =>
    decide (entries.map (·.target)).Nodup &&
    entries.all (fun e => p.observed.contains e.target) &&
    deliverable (observerCallback entries p) rest

/-- The write of the callback to an intersecting target. -/
def reveal (e : Element) : Element :=
  { e with classList := classAdd e.classList (utf16 "fade-in") }

/-- A page with two cards, both observed. -/
def cardsPage : Page :=
  initScrollAnimations
    { document := { nodes := [
        { classList := [utf16 "about-card"] }, { classList := [utf16 "skill-card"] }] } }

/-- The error a listener ends with, `none` when it runs to completion. -/
def thrown {α : Type} (r : Except JSError α) : Option JSError :=
  match r with
  | .error err => some err
  | .ok _ => none

/-- A page without header: one navigation link to `#about` and its section. -/
def noHeaderDoc : Document :=
  { nodes := [
      { classList := [utf16 "nav-link"], href := some (utf16 "#about") },
      { id := utf16 "about" }] }

/-- A page with an open menu panel but no toggle button, and a header. -/
def noToggleDoc : Document :=
  { nodes := [
      { classList := [utf16 "nav-link"], href := some (utf16 "#about") },
      { id := utf16 "about" },
      { id := utf16 "nav-menu", classList := [utf16 "active"] },
      { id := utf16 "header" }] }

/-- A page with the form and its status element but none of the inputs. -/
def noInputsDoc : Document :=
  { nodes := [{ id := utf16 "contact-form" }, { id := utf16 "form-status" }] }

/-! ## Lemmas about the document -/

theorem findId_spec (i : JSString) (es : List Element) (n : Nat) (h : findId i es = some n) :
    ∃ e, es[n]? = some e ∧ e.id = i := by
  induction es generalizing n with
  | nil => simp [findId] at h
  | cons e es ih =>
    unfold findId at h
    split at h
    · rename_i he
      cases h
      exact ⟨e, by simp, he⟩
    · cases hf : findId i es with
      | none => simp [hf] at h
      | some k =>
        simp [hf] at h
        subst h
        obtain ⟨e', h1, h2⟩ := ih k hf
        exact ⟨e', by simpa using h1, h2⟩

theorem findId_updateAt (i : JSString) (n : Nat) (f : Element → Element)
    (hf : ∀ e, (f e).id = e.id) (es : List Element) :
    findId i (updateAt n f es) = findId i es := by
  induction es generalizing n with
  | nil => simp [updateAt]
  | cons e es ih =>
    cases n with
    | zero => simp [updateAt, findId, hf]
    | succ k => simp [updateAt, findId, ih]

theorem getElem?_updateAt (n m : Nat) (f : Element → Element) (es : List Element) :
    (updateAt n f es)[m]? = if m = n then es[m]?.map f else es[m]? := by
  induction es generalizing n m with
  | nil => simp [updateAt]
  | cons e es ih =>
    cases n with
    | zero => cases m <;> simp [updateAt]
    | succ k => cases m <;> simp [updateAt, ih]

theorem length_updateAt (n : Nat) (f : Element → Element) (es : List Element) :
    (updateAt n f es).length = es.length := by
  induction es generalizing n with
  | nil => simp [updateAt]
  | cons e es ih => cases n <;> simp [updateAt, ih]

theorem getElementById_update (d : Document) (n : Nat) (f : Element → Element)
    (hf : ∀ e, (f e).id = e.id) (i : JSString) :
    (d.update n f).getElementById i = d.getElementById i := by
  simp [Document.getElementById, Document.update, findId_updateAt i n f hf]

theorem node_update (d : Document) (n m : Nat) (f : Element → Element) :
    (d.update n f).node m = if m = n then (d.node m).map f else d.node m := by
  simp [Document.node, Document.update, getElem?_updateAt]

theorem dataTheme_update (d : Document) (n : Nat) (f : Element → Element) :
    (d.update n f).dataTheme = d.dataTheme := rfl

theorem getElementById_node (d : Document) (i : JSString) (n : Nat)
    (h : d.getElementById i = some n) : ∃ e, d.node n = some e ∧ e.id = i := by
  unfold Document.getElementById at h
  split at h
  · cases h
  · exact findId_spec i d.nodes n h

theorem getElementById_inj (d : Document) (i j : JSString) (n : Nat)
    (hi : d.getElementById i = some n) (hj : d.getElementById j = some n) : i = j := by
  obtain ⟨e, h1, h2⟩ := getElementById_node d i n hi
  obtain ⟨e', h1', h2'⟩ := getElementById_node d j n hj
  rw [h1] at h1'
  cases h1'
  rw [← h2, ← h2']

/-! ## C4: greeting -/

/-- C4: for every hour `h` with `0 ≤ h ≤ 23`, when the greeting element is
present, the text written by `displayGreeting` is the morning text for
`5 ≤ h < 12`, the afternoon text for `12 ≤ h < 17`, the evening text for
`17 ≤ h < 22` and the fallback text for `h < 5` or `h ≥ 22`; exactly one of
the four cases applies to each hour. -/
theorem displayGreeting_by_hour (h : Nat) (d : Document) (g : Nat) (hh : h ≤ 23)
    (hg : d.getElementById (utf16 "greeting") = some g) :
    (5 ≤ h ∧ h < 12 → (displayGreeting h d).text (utf16 "greeting") = some (utf16 "Good morning! ☀️")) ∧
    (12 ≤ h ∧ h < 17 → (displayGreeting h d).text (utf16 "greeting") = some (utf16 "Good afternoon! 👋")) ∧
    (17 ≤ h ∧ h < 22 → (displayGreeting h d).text (utf16 "greeting") = some (utf16 "Good evening! 🌙")) ∧
    (h < 5 ∨ 22 ≤ h → (displayGreeting h d).text (utf16 "greeting") = some (utf16 "Hello there! ✨")) ∧
    ((5 ≤ h ∧ h < 12) ∨ (12 ≤ h ∧ h < 17) ∨ (17 ≤ h ∧ h < 22) ∨ (h < 5 ∨ 22 ≤ h)) ∧
    ¬ ((5 ≤ h ∧ h < 12) ∧ (12 ≤ h ∧ h < 17)) ∧ ¬ ((5 ≤ h ∧ h < 12) ∧ (17 ≤ h ∧ h < 22)) ∧
    ¬ ((5 ≤ h ∧ h < 12) ∧ (h < 5 ∨ 22 ≤ h)) ∧ ¬ ((12 ≤ h ∧ h < 17) ∧ (17 ≤ h ∧ h < 22)) ∧
    ¬ ((12 ≤ h ∧ h < 17) ∧ (h < 5 ∨ 22 ≤ h)) ∧ ¬ ((17 ≤ h ∧ h < 22) ∧ (h < 5 ∨ 22 ≤ h)) := by
  obtain ⟨e, he, -⟩ := getElementById_node d _ g hg
  have key : ∀ t, (d.update g (fun e => { e with textContent := t })).text (utf16 "greeting")
      = some t := by
    intro t
    simp [Document.text, Document.elem, getElementById_update, hg, node_update, he]
  refine ⟨?_, ?_, ?_, ?_, by omega, by omega, by omega, by omega, by omega, by omega, by omega⟩
  · intro hc
    have : displayGreeting h d = d.update g (fun e => { e with textContent := utf16 "Good morning! ☀️" }) := by
      simp [displayGreeting, hg, hc]
    rw [this, key]
  · intro hc
    have : displayGreeting h d = d.update g (fun e => { e with textContent := utf16 "Good afternoon! 👋" }) := by
      have h1 : ¬ (5 ≤ h ∧ h < 12) := by omega
      simp [displayGreeting, hg, hc, h1]
    rw [this, key]
  · intro hc
    have : displayGreeting h d = d.update g (fun e => { e with textContent := utf16 "Good evening! 🌙" }) := by
      have h1 : ¬ (5 ≤ h ∧ h < 12) := by omega
      have h2 : ¬ (12 ≤ h ∧ h < 17) := by omega
      simp [displayGreeting, hg, hc, h1, h2]
    rw [this, key]
  · intro hc
    have : displayGreeting h d = d.update g (fun e => { e with textContent := utf16 "Hello there! ✨" }) := by
      have h1 : ¬ (5 ≤ h ∧ h < 12) := by omega
      have h2 : ¬ (12 ≤ h ∧ h < 17) := by omega
      have h3 : ¬ (17 ≤ h ∧ h < 22) := by omega
      simp only [displayGreeting, hg, ge_iff_le, h1, h2, h3, if_false]
    rw [this, key]

/-- C4 at 13 o'clock: the afternoon text is written. -/
theorem displayGreeting_by_hour_witness :
    greetingDoc.getElementById (utf16 "greeting") = some 0 ∧
    (displayGreeting 13 greetingDoc).text (utf16 "greeting") = some (utf16 "Good afternoon! 👋") :=
  ⟨by decide, (displayGreeting_by_hour 13 greetingDoc 0 (by decide) (by decide)).2.1
    ⟨by decide, by decide⟩⟩

/-! ## C5, C6: theme -/

theorem getItem_setItem (st : Storage) (k v : JSString) :
    (st.setItem k v).getItem k = some v := by
  simp [Storage.getItem, Storage.setItem]

/-- C5, as amended: when the `data-theme` attribute is `"light"` or `"dark"`,
two calls of `toggleTheme` return it to its original value; and in every
state, after each of the two calls the value stored under `"theme"` equals
the attribute. -/
theorem toggleTheme_twice (p : Page) :
    (p.document.dataTheme = some (utf16 "light") ∨ p.document.dataTheme = some (utf16 "dark") →
      (toggleTheme (toggleTheme p)).document.dataTheme = p.document.dataTheme) ∧
    (toggleTheme p).localStorage.getItem (utf16 "theme") = (toggleTheme p).document.dataTheme ∧
    (toggleTheme (toggleTheme p)).localStorage.getItem (utf16 "theme")
      = (toggleTheme (toggleTheme p)).document.dataTheme := by
  refine ⟨?_, ?_, ?_⟩
  · rintro (h | h)
    · have hne : utf16 "light" ≠ utf16 "dark" := by decide
      simp [toggleTheme, h, hne]
    · have hne : utf16 "light" ≠ utf16 "dark" := by decide
      simp [toggleTheme, h, hne]
  · simp only [toggleTheme, getItem_setItem]
  · simp only [toggleTheme, getItem_setItem]

/-- C5 on a page whose attribute is `"dark"`. -/
theorem toggleTheme_twice_witness :
    (toggleTheme (toggleTheme { document := { dataTheme := some (utf16 "dark") } })).document.dataTheme
      = some (utf16 "dark") :=
  (toggleTheme_twice { document := { dataTheme := some (utf16 "dark") } }).1 (Or.inr rfl)

/-- C5 as stated fails: from a root without the attribute, or with a value
other than the two themes, two toggles end at `"light"`. -/
theorem toggleTheme_twice_not_involution :
    (toggleTheme (toggleTheme {})).document.dataTheme = some (utf16 "light") ∧
    (toggleTheme (toggleTheme {})).document.dataTheme ≠ ({} : Page).document.dataTheme ∧
    (toggleTheme (toggleTheme { document := { dataTheme := some (utf16 "blue") } })).document.dataTheme
      ≠ some (utf16 "blue") := by
  decide

/-- C6, as amended: after `initTheme` the attribute equals the stored value
when one is present and non-empty; it is `"dark"` or `"light"` following the
system preference when nothing, or the empty string, is stored; and it is one
of `"light"`, `"dark"` whenever the stored value is absent, empty, `"light"`
or `"dark"`. -/
theorem initTheme_attribute (p : Page) :
    (∀ t, p.localStorage.getItem (utf16 "theme") = some t → t ≠ utf16 "" →
      (initTheme p).document.dataTheme = some t) ∧
    (p.localStorage.getItem (utf16 "theme") = none ∨
      p.localStorage.getItem (utf16 "theme") = some (utf16 "") →
      (initTheme p).document.dataTheme
        = some (if p.systemPrefersDark then utf16 "dark" else utf16 "light")) ∧
    (p.localStorage.getItem (utf16 "theme") = none ∨
      p.localStorage.getItem (utf16 "theme") = some (utf16 "") ∨
      p.localStorage.getItem (utf16 "theme") = some (utf16 "light") ∨
      p.localStorage.getItem (utf16 "theme") = some (utf16 "dark") →
      (initTheme p).document.dataTheme = some (utf16 "light") ∨
      (initTheme p).document.dataTheme = some (utf16 "dark")) := by
  have hl : truthy (utf16 "light") = true := by decide
  have hd : truthy (utf16 "dark") = true := by decide
  have he : truthy (utf16 "") = false := by decide
  refine ⟨?_, ?_, ?_⟩
  · intro t ht hne
    have : truthy t = true := by
      cases t with
      | nil => exact absurd rfl hne
      | cons c cs => rfl
    simp [initTheme, ht, orElse, this]
  · rintro (h | h)
    · simp [initTheme, h, orElse]
    · simp [initTheme, h, orElse, he]
  · rintro (h | h | h | h)
    · cases hp : p.systemPrefersDark <;> simp [initTheme, h, orElse, hp]
    · cases hp : p.systemPrefersDark <;> simp [initTheme, h, orElse, he, hp]
    · simp [initTheme, h, orElse, hl]
    · simp [initTheme, h, orElse, hd]

/-- C6 with `"dark"` stored and a system that prefers light. -/
theorem initTheme_attribute_witness :
    (initTheme { localStorage := [(utf16 "theme", utf16 "dark")] }).document.dataTheme
      = some (utf16 "dark") :=
  (initTheme_attribute { localStorage := [(utf16 "theme", utf16 "dark")] }).1 (utf16 "dark")
    (by decide) (by decide)

/-- C6 as stated fails: a stored `"blue"` becomes the attribute, which is
neither theme; and a stored empty string is present but is not the result. -/
theorem initTheme_stored_other :
    (initTheme { localStorage := [(utf16 "theme", utf16 "blue")] }).document.dataTheme
      = some (utf16 "blue") ∧
    utf16 "blue" ≠ utf16 "light" ∧ utf16 "blue" ≠ utf16 "dark" ∧
    ({ localStorage := [(utf16 "theme", utf16 "")] } : Page).localStorage.getItem (utf16 "theme")
      = some (utf16 "") ∧
    (initTheme { localStorage := [(utf16 "theme", utf16 "")] }).document.dataTheme
      = some (utf16 "light") := by
  decide

/-! ## C2: email pattern -/

theorem matchTerms_nil (s : JSString) : matchTerms [] s = true ↔ s = [] := by
  cases s <;> simp [matchTerms]

theorem matchTerms_one (a : Atom) (ps : List Term) (s : JSString) :
    matchTerms (.one a :: ps) s = true ↔
      ∃ c t, s = c :: t ∧ a.test c = true ∧ matchTerms ps t = true := by
  cases s with
  | nil => simp [matchTerms]
  | cons c t =>
    simp only [matchTerms, Bool.and_eq_true, List.cons.injEq]
    constructor
    · rintro ⟨h1, h2⟩
      exact ⟨c, t, ⟨rfl, rfl⟩, h1, h2⟩
    · rintro ⟨c', t', ⟨rfl, rfl⟩, h1, h2⟩
      exact ⟨h1, h2⟩

theorem matchTerms_plus (a : Atom) (ps : List Term) (s : JSString) :
    matchTerms (.plus a :: ps) s = true ↔
      ∃ x y, x ≠ [] ∧ s = x ++ y ∧ (∀ c ∈ x, a.test c = true) ∧ matchTerms ps y = true := by
  induction s with
  | nil =>
    simp only [matchTerms, Bool.false_eq_true, false_iff]
    rintro ⟨x, y, hx, hs, -⟩
    cases x with
    | nil => exact hx rfl
    | cons c x => simp at hs
  | cons c t ih =>
    simp only [matchTerms, Bool.and_eq_true, Bool.or_eq_true]
    constructor
    · rintro ⟨hc, h | h⟩
      · obtain ⟨x, y, _, hs, hall, hm⟩ := ih.mp h
        refine ⟨c :: x, y, by simp, by simp [hs], ?_, hm⟩
        intro c' hc'
        rcases List.mem_cons.mp hc' with rfl | h'
        · exact hc
        · exact hall c' h'
      · exact ⟨[c], t, by simp, by simp, by simpa using hc, h⟩
    · rintro ⟨x, y, hx, hs, hall, hm⟩
      cases x with
      | nil => exact absurd rfl hx
      | cons c' x' =>
        simp only [List.cons_append, List.cons.injEq] at hs
        obtain ⟨rfl, rfl⟩ := hs
        refine ⟨hall c (by simp), ?_⟩
        cases x' with
        | nil => right; simpa using hm
        | cons c'' x'' =>
          left
          exact ih.mpr ⟨c'' :: x'', y, by simp, rfl,
            fun z hz => hall z (List.mem_cons_of_mem _ hz), hm⟩

theorem test_notSpaceNor_at (x : Nat) :
    (Atom.notSpaceNor [0x40]).test x = true ↔ isWhiteSpace x = false ∧ x ≠ 0x40 := by
  simp [Atom.test]

/-- The pattern matches exactly the strings `A@B.C` with `A`, `B`, `C` non-empty
and free of white space and `@`. -/
theorem isValidEmail_decompose (s : JSString) :
    isValidEmail s = true ↔
      ∃ A B C, s = A ++ 0x40 :: (B ++ 0x2E :: C) ∧ A ≠ [] ∧ B ≠ [] ∧ C ≠ [] ∧
        (∀ c ∈ A, isWhiteSpace c = false ∧ c ≠ 0x40) ∧
        (∀ c ∈ B, isWhiteSpace c = false ∧ c ≠ 0x40) ∧
        (∀ c ∈ C, isWhiteSpace c = false ∧ c ≠ 0x40) := by
  unfold isValidEmail emailRegex
  constructor
  · intro h
    obtain ⟨A, y1, hA, rfl, hallA, h⟩ := (matchTerms_plus _ _ _).mp h
    obtain ⟨c1, y2, rfl, hc1, h⟩ := (matchTerms_one _ _ _).mp h
    obtain ⟨B, y3, hB, rfl, hallB, h⟩ := (matchTerms_plus _ _ _).mp h
    obtain ⟨c2, y4, rfl, hc2, h⟩ := (matchTerms_one _ _ _).mp h
    obtain ⟨C, y5, hC, rfl, hallC, h⟩ := (matchTerms_plus _ _ _).mp h
    have hy5 := (matchTerms_nil y5).mp h
    subst hy5
    have e1 : c1 = 0x40 := by simpa [Atom.test] using hc1
    have e2 : c2 = 0x2E := by simpa [Atom.test] using hc2
    subst e1 e2
    exact ⟨A, B, C, by simp, hA, hB, hC,
      fun c hc => (test_notSpaceNor_at c).mp (hallA c hc),
      fun c hc => (test_notSpaceNor_at c).mp (hallB c hc),
      fun c hc => (test_notSpaceNor_at c).mp (hallC c hc)⟩
  · rintro ⟨A, B, C, rfl, hA, hB, hC, hallA, hallB, hallC⟩
    refine (matchTerms_plus _ _ _).mpr ⟨A, _, hA, rfl,
      fun c hc => (test_notSpaceNor_at c).mpr (hallA c hc), ?_⟩
    refine (matchTerms_one _ _ _).mpr ⟨0x40, _, rfl, by simp [Atom.test], ?_⟩
    refine (matchTerms_plus _ _ _).mpr ⟨B, _, hB, rfl,
      fun c hc => (test_notSpaceNor_at c).mpr (hallB c hc), ?_⟩
    refine (matchTerms_one _ _ _).mpr ⟨0x2E, _, rfl, by simp [Atom.test], ?_⟩
    refine (matchTerms_plus _ _ _).mpr ⟨C, [], hC, by simp,
      fun c hc => (test_notSpaceNor_at c).mpr (hallC c hc), ?_⟩
    exact (matchTerms_nil []).mpr rfl

/-- C2: `isValidEmail(s)` is true exactly when `s` has no white space, exactly
one `@`, a non-empty part before it, and a `.` in the part after it that is
neither first nor last there; it accepts `"a@b.co"` and rejects `"a@b"`,
`"a b@c.com"` and `"abc.com"`. -/
theorem isValidEmail_iff_shape :
    (∀ s : JSString, isValidEmail s = true ↔ EmailShape s) ∧
    isValidEmail (utf16 "a@b.co") = true ∧ isValidEmail (utf16 "a@b") = false ∧
    isValidEmail (utf16 "a b@c.com") = false ∧ isValidEmail (utf16 "abc.com") = false := by
  refine ⟨?_, by decide, by decide, by decide, by decide⟩
  intro s
  rw [isValidEmail_decompose]
  constructor
  · rintro ⟨A, B, C, rfl, hA, hB, hC, hallA, hallB, hallC⟩
    have cA : A.count 0x40 = 0 := List.count_eq_zero.mpr (fun h => (hallA _ h).2 rfl)
    have cB : B.count 0x40 = 0 := List.count_eq_zero.mpr (fun h => (hallB _ h).2 rfl)
    have cC : C.count 0x40 = 0 := List.count_eq_zero.mpr (fun h => (hallC _ h).2 rfl)
    refine ⟨?_, ?_, A, B ++ 0x2E :: C, rfl, hA, B, C, rfl, hB, hC⟩
    · intro c hc
      simp only [List.mem_append, List.mem_cons] at hc
      rcases hc with h | rfl | h | rfl | h
      · exact (hallA c h).1
      · decide
      · exact (hallB c h).1
      · decide
      · exact (hallC c h).1
    · simp [List.count_append, List.count_cons, cA, cB, cC]
  · rintro ⟨hws, hcount, l, d, rfl, hl, a, b, rfl, ha, hb⟩
    simp only [List.count_append, List.count_cons, beq_self_eq_true, if_true] at hcount
    have c46 : ((46 : Nat) == 64) = false := by decide
    simp only [c46] at hcount
    have cl : l.count 0x40 = 0 := by simp at hcount; omega
    have ca : a.count 0x40 = 0 := by simp at hcount; omega
    have cb : b.count 0x40 = 0 := by simp at hcount; omega
    refine ⟨l, a, b, rfl, hl, ha, hb, ?_, ?_, ?_⟩
    · intro c hc
      exact ⟨hws c (by simp [hc]), fun h => List.count_eq_zero.mp cl (h ▸ hc)⟩
    · intro c hc
      exact ⟨hws c (by simp [hc]), fun h => List.count_eq_zero.mp ca (h ▸ hc)⟩
    · intro c hc
      exact ⟨hws c (by simp [hc]), fun h => List.count_eq_zero.mp cb (h ▸ hc)⟩

/-! ## C1: validation rules -/

theorem text_update (d : Document) (n : Nat) (f : Element → Element)
    (hf : ∀ e, (f e).id = e.id) (i : JSString) :
    (d.update n f).text i =
      if d.getElementById i = some n then (d.elem i).map (fun e => (f e).textContent)
      else d.text i := by
  unfold Document.text Document.elem
  rw [getElementById_update d n f hf]
  cases h : d.getElementById i with
  | none => simp
  | some k =>
    by_cases hk : k = n
    · subst hk
      simp [node_update, Function.comp_def]
    · simp [node_update, hk]

theorem text_update_borderColor (d : Document) (n : Nat) (c i : JSString) :
    (d.update n (fun e => { e with borderColor := c })).text i = d.text i := by
  rw [text_update d n (fun e => { e with borderColor := c }) (fun _ => rfl) i]
  split
  · rfl
  · rfl

theorem text_update_textContent (d : Document) (n : Nat) (m i : JSString) :
    (d.update n (fun e => { e with textContent := m })).text i =
      if d.getElementById i = some n then (d.elem i).map (fun _ => m) else d.text i :=
  text_update d n (fun e => { e with textContent := m }) (fun _ => rfl) i

theorem showError_getElementById (f m : JSString) (d : Document) (i : JSString) :
    (showError f m d).getElementById i = d.getElementById i := by
  rcases h1 : d.getElementById (f ++ utf16 "-error") with _ | err <;>
    rcases h2 : d.getElementById f with _ | input <;>
    simp only [showError, h1, h2]
  simp (disch := exact fun _ => rfl) only [getElementById_update]

theorem clearError_getElementById (f : JSString) (d : Document) (i : JSString) :
    (clearError f d).getElementById i = d.getElementById i := by
  rcases h1 : d.getElementById (f ++ utf16 "-error") with _ | err <;>
    rcases h2 : d.getElementById f with _ | input <;>
    simp only [clearError, h1, h2]
  simp (disch := exact fun _ => rfl) only [getElementById_update]

theorem showError_fieldPresent (f m : JSString) (d : Document) (g : JSString) :
    FieldPresent (showError f m d) g ↔ FieldPresent d g := by
  simp only [FieldPresent, showError_getElementById]

theorem clearError_fieldPresent (f : JSString) (d : Document) (g : JSString) :
    FieldPresent (clearError f d) g ↔ FieldPresent d g := by
  simp only [FieldPresent, clearError_getElementById]

theorem append_suffix_inj (g f t : JSString) : g ++ t = f ++ t ↔ g = f :=
  List.append_left_inj t

/-- Writing the text `m` into the element `err` and a border colour into `input`
changes the error text of field `f` only. -/
theorem errorText_write (f m c : JSString) (d : Document) (err input : Nat) (g : JSString)
    (he : d.getElementById (f ++ utf16 "-error") = some err) :
    errorText ((d.update err (fun e => { e with textContent := m })).update input
      (fun e => { e with borderColor := c })) g
      = if g = f then some m else errorText d g := by
  obtain ⟨e0, hn0, -⟩ := getElementById_node d _ err he
  unfold errorText
  rw [text_update_borderColor, text_update_textContent]
  by_cases hgf : g = f
  · subst hgf
    simp [he, Document.elem, hn0]
  · have : d.getElementById (g ++ utf16 "-error") ≠ some err := by
      intro h
      exact hgf ((append_suffix_inj g f _).mp (getElementById_inj d _ _ err h he))
    simp [this, hgf]

theorem showError_errorText (f m : JSString) (d : Document) (g : JSString)
    (hp : FieldPresent d f) :
    errorText (showError f m d) g = if g = f then some m else errorText d g := by
  obtain ⟨h1, h2⟩ := hp
  obtain ⟨input, hi⟩ := Option.isSome_iff_exists.mp h1
  obtain ⟨err, he⟩ := Option.isSome_iff_exists.mp h2
  simp only [showError, he, hi]
  exact errorText_write f m _ d err input g he

theorem clearError_errorText (f : JSString) (d : Document) (g : JSString)
    (hp : FieldPresent d f) :
    errorText (clearError f d) g = if g = f then some (utf16 "") else errorText d g := by
  obtain ⟨h1, h2⟩ := hp
  obtain ⟨input, hi⟩ := Option.isSome_iff_exists.mp h1
  obtain ⟨err, he⟩ := Option.isSome_iff_exists.mp h2
  simp only [clearError, he, hi]
  exact errorText_write f _ _ d err input g he

theorem map_updateAt (g : Element → Element) (n : Nat) (f : Element → Element)
    (hf : ∀ e, g (f e) = g e) (es : List Element) :
    (updateAt n f es).map g = es.map g := by
  induction es generalizing n with
  | nil => simp [updateAt]
  | cons e es ih => cases n <;> simp [updateAt, ih, hf]

theorem showError_core (f m : JSString) (d : Document) :
    (showError f m d).nodes.map Element.core = d.nodes.map Element.core ∧
    (showError f m d).dataTheme = d.dataTheme := by
  rcases h1 : d.getElementById (f ++ utf16 "-error") with _ | err <;>
    rcases h2 : d.getElementById f with _ | input <;>
    simp only [showError, h1, h2, and_self]
  simp only [Document.update]
  rw [map_updateAt _ _ _ (by intro e; rfl), map_updateAt _ _ _ (by intro e; rfl)]
  exact ⟨rfl, trivial⟩

theorem clearError_core (f : JSString) (d : Document) :
    (clearError f d).nodes.map Element.core = d.nodes.map Element.core ∧
    (clearError f d).dataTheme = d.dataTheme := by
  rcases h1 : d.getElementById (f ++ utf16 "-error") with _ | err <;>
    rcases h2 : d.getElementById f with _ | input <;>
    simp only [clearError, h1, h2, and_self]
  simp only [Document.update]
  rw [map_updateAt _ _ _ (by intro e; rfl), map_updateAt _ _ _ (by intro e; rfl)]
  exact ⟨rfl, trivial⟩

theorem validationStep_flag (f msg : JSString) (r : Bool × Document) :
    (validationStep f msg r).1 = true ↔ msg = utf16 "" ∧ r.1 = true := by
  unfold validationStep
  split <;> simp [*]

theorem validationStep_getElementById (f msg : JSString) (r : Bool × Document) (i : JSString) :
    (validationStep f msg r).2.getElementById i = r.2.getElementById i := by
  unfold validationStep
  split
  · rfl
  · exact showError_getElementById _ _ _ _

theorem validationStep_fieldPresent (f msg : JSString) (r : Bool × Document) (g : JSString) :
    FieldPresent (validationStep f msg r).2 g ↔ FieldPresent r.2 g := by
  simp only [FieldPresent, validationStep_getElementById]

theorem validationStep_core (f msg : JSString) (r : Bool × Document) :
    (validationStep f msg r).2.nodes.map Element.core = r.2.nodes.map Element.core := by
  unfold validationStep
  split
  · rfl
  · exact (showError_core _ _ _).1

theorem validationStep_errorText (f msg : JSString) (r : Bool × Document) (g : JSString)
    (hp : FieldPresent r.2 f) :
    errorText (validationStep f msg r).2 g =
      if g = f ∧ msg ≠ utf16 "" then some msg else errorText r.2 g := by
  unfold validationStep
  by_cases hm : msg = utf16 ""
  · simp [hm]
  · simp only [hm, if_false, showError_errorText f msg r.2 g hp, ne_eq, not_false_eq_true, and_true]

theorem nameBlock_eq (name : JSString) (d : Document) :
    (if name = utf16 "" then (false, showError (utf16 "name") (utf16 "Name is required") d)
      else if name.length < 2 then
        (false, showError (utf16 "name") (utf16 "Name must be at least 2 characters") d)
      else (true, d)) = validationStep (utf16 "name") (nameRule name) (true, d) := by
  have h1 : utf16 "Name is required" ≠ utf16 "" := by decide
  have h2 : utf16 "Name must be at least 2 characters" ≠ utf16 "" := by decide
  unfold validationStep nameRule
  split_ifs <;> simp_all

theorem emailBlock_eq (email : JSString) (r : Bool × Document) :
    (if email = utf16 "" then (false, showError (utf16 "email") (utf16 "Email is required") r.2)
      else if (!isValidEmail email) = true then
        (false, showError (utf16 "email") (utf16 "Please enter a valid email address") r.2)
      else r) = validationStep (utf16 "email") (emailRule email) r := by
  have h1 : utf16 "Email is required" ≠ utf16 "" := by decide
  have h2 : utf16 "Please enter a valid email address" ≠ utf16 "" := by decide
  unfold validationStep emailRule
  split_ifs <;> simp_all

theorem messageBlock_eq (message : JSString) (r : Bool × Document) :
    (if message = utf16 "" then
        (false, showError (utf16 "message") (utf16 "Message is required") r.2)
      else if message.length < 10 then
        (false, showError (utf16 "message") (utf16 "Message must be at least 10 characters") r.2)
      else r) = validationStep (utf16 "message") (messageRule message) r := by
  have h1 : utf16 "Message is required" ≠ utf16 "" := by decide
  have h2 : utf16 "Message must be at least 10 characters" ≠ utf16 "" := by decide
  unfold validationStep messageRule
  split_ifs <;> simp_all

/-- When the form data has the three values, `validateForm` does not throw and
is the three clearings followed by the three validation blocks. -/
theorem validateForm_eq (fd : FormData) (d : Document) (n e m : JSString)
    (hn : fd.get (utf16 "name") = some n) (he : fd.get (utf16 "email") = some e)
    (hm : fd.get (utf16 "message") = some m) :
    validateForm fd d = .ok
      (validated d (nameRule (trim n)) (emailRule (trim e)) (messageRule (trim m))) := by
  simp only [validateForm, getTrimmed, hn, he, hm]
  rw [nameBlock_eq, emailBlock_eq, messageBlock_eq]
  rfl

/-- The error texts after the clearings and the three validation blocks. -/
theorem validation_errorTexts (d : Document) (a b c : JSString)
    (hpn : FieldPresent d (utf16 "name")) (hpe : FieldPresent d (utf16 "email"))
    (hpm : FieldPresent d (utf16 "message")) :
    errorText (validated d a b c).2 (utf16 "name") = some a ∧
    errorText (validated d a b c).2 (utf16 "email") = some b ∧
    errorText (validated d a b c).2 (utf16 "message") = some c := by
  have ne1 : utf16 "name" ≠ utf16 "email" := by decide
  have ne2 : utf16 "name" ≠ utf16 "message" := by decide
  have ne3 : utf16 "email" ≠ utf16 "message" := by decide
  have ne4 : utf16 "email" ≠ utf16 "name" := by decide
  have ne5 : utf16 "message" ≠ utf16 "name" := by decide
  have ne6 : utf16 "message" ≠ utf16 "email" := by decide
  have c1 : ∀ g, FieldPresent (clearError (utf16 "name") d) g ↔ FieldPresent d g :=
    fun g => clearError_fieldPresent _ _ g
  have c2 : ∀ g, FieldPresent (clearError (utf16 "email") (clearError (utf16 "name") d)) g
      ↔ FieldPresent d g :=
    fun g => (clearError_fieldPresent _ _ g).trans (c1 g)
  have c3 : ∀ g, FieldPresent (clearError (utf16 "message")
      (clearError (utf16 "email") (clearError (utf16 "name") d))) g ↔ FieldPresent d g :=
    fun g => (clearError_fieldPresent _ _ g).trans (c2 g)
  have hclear : ∀ g, FieldPresent d g → (g = utf16 "name" ∨ g = utf16 "email" ∨ g = utf16 "message") →
      errorText (clearError (utf16 "message")
        (clearError (utf16 "email") (clearError (utf16 "name") d))) g = some (utf16 "") := by
    intro g _ hg
    rw [clearError_errorText _ _ _ ((c2 _).mpr hpm), clearError_errorText _ _ _ ((c1 _).mpr hpe),
      clearError_errorText _ _ _ hpn]
    rcases hg with rfl | rfl | rfl <;> simp [ne1, ne2, ne3, ne4, ne5, ne6]
  unfold validated
  have s1 : ∀ g, FieldPresent (validationStep (utf16 "name") a
      (true, clearError (utf16 "message")
        (clearError (utf16 "email") (clearError (utf16 "name") d)))).2 g ↔ FieldPresent d g :=
    fun g => (validationStep_fieldPresent _ _ _ g).trans (c3 g)
  have s2 : ∀ g, FieldPresent (validationStep (utf16 "email") b
      (validationStep (utf16 "name") a
        (true, clearError (utf16 "message")
          (clearError (utf16 "email") (clearError (utf16 "name") d))))).2 g ↔ FieldPresent d g :=
    fun g => (validationStep_fieldPresent _ _ _ g).trans (s1 g)
  have e0 : utf16 "" = ([] : JSString) := rfl
  refine ⟨?_, ?_, ?_⟩
  · show errorText (validationStep _ _ _).2 _ = _
    rw [validationStep_errorText _ _ _ _ ((s2 _).mpr hpm),
      validationStep_errorText _ _ _ _ ((s1 _).mpr hpe),
      validationStep_errorText _ _ _ _ ((c3 _).mpr hpn), hclear _ hpn (Or.inl rfl)]
    by_cases ha : a = utf16 "" <;> simp [ne1, ne2, ha]
  · show errorText (validationStep _ _ _).2 _ = _
    rw [validationStep_errorText _ _ _ _ ((s2 _).mpr hpm),
      validationStep_errorText _ _ _ _ ((s1 _).mpr hpe),
      validationStep_errorText _ _ _ _ ((c3 _).mpr hpn), hclear _ hpe (Or.inr (Or.inl rfl))]
    by_cases hb : b = utf16 "" <;> simp [ne3, ne4, hb]
  · show errorText (validationStep _ _ _).2 _ = _
    rw [validationStep_errorText _ _ _ _ ((s2 _).mpr hpm),
      validationStep_errorText _ _ _ _ ((s1 _).mpr hpe),
      validationStep_errorText _ _ _ _ ((c3 _).mpr hpn),
      hclear _ hpm (Or.inr (Or.inr rfl))]
    by_cases hc : c = utf16 "" <;> simp [ne5, ne6, hc]

/-- What `validateForm` does when the form data has the three values and the
three fields are present: it returns, the flag says whether every rule gives
the empty message, each error text is the message of the field's rule, and
nothing but texts and border colours is written. -/
theorem validateForm_spec (fd : FormData) (d : Document) (n e m : JSString)
    (hn : fd.get (utf16 "name") = some n) (he : fd.get (utf16 "email") = some e)
    (hm : fd.get (utf16 "message") = some m)
    (hpn : FieldPresent d (utf16 "name")) (hpe : FieldPresent d (utf16 "email"))
    (hpm : FieldPresent d (utf16 "message")) :
    ∃ ok d', validateForm fd d = .ok (ok, d') ∧
      (errorText d' (utf16 "name") = some (nameRule (trim n)) ∧
       errorText d' (utf16 "email") = some (emailRule (trim e)) ∧
       errorText d' (utf16 "message") = some (messageRule (trim m))) ∧
      (ok = true ↔ nameRule (trim n) = utf16 "" ∧ emailRule (trim e) = utf16 "" ∧
        messageRule (trim m) = utf16 "") ∧
      (∀ i, d'.getElementById i = d.getElementById i) ∧
      d'.nodes.map Element.core = d.nodes.map Element.core := by
  rw [validateForm_eq fd d n e m hn he hm]
  refine ⟨(validated d _ _ _).1, (validated d _ _ _).2, rfl,
    validation_errorTexts d (nameRule (trim n)) (emailRule (trim e))
      (messageRule (trim m)) hpn hpe hpm, ?_, ?_, ?_⟩
  · simp only [validated, validationStep_flag]
    tauto
  · intro i
    simp only [validated, validationStep_getElementById, clearError_getElementById]
  · simp only [validated, validationStep_core, clearError_core]

/-- C1: when the form data has name, email and message values and the three
inputs and their error elements are present, `validateForm` returns and leaves
as error text of each field the message its rule gives for the trimmed value:
required when empty, the length or format message when non-empty and too
short or rejected by `isValidEmail`, and the empty string otherwise. -/
theorem validateForm_errorTexts (fd : FormData) (d : Document) (n e m : JSString)
    (hn : fd.get (utf16 "name") = some n) (he : fd.get (utf16 "email") = some e)
    (hm : fd.get (utf16 "message") = some m)
    (hpn : FieldPresent d (utf16 "name")) (hpe : FieldPresent d (utf16 "email"))
    (hpm : FieldPresent d (utf16 "message")) :
    ∃ ok d', validateForm fd d = .ok (ok, d') ∧
      errorText d' (utf16 "name") = some
        (if trim n = utf16 "" then utf16 "Name is required"
         else if (trim n).length < 2 then utf16 "Name must be at least 2 characters"
         else utf16 "") ∧
      errorText d' (utf16 "email") = some
        (if trim e = utf16 "" then utf16 "Email is required"
         else if isValidEmail (trim e) = false then utf16 "Please enter a valid email address"
         else utf16 "") ∧
      errorText d' (utf16 "message") = some
        (if trim m = utf16 "" then utf16 "Message is required"
         else if (trim m).length < 10 then utf16 "Message must be at least 10 characters"
         else utf16 "") := by
  obtain ⟨ok, d', h, ht, -⟩ := validateForm_spec fd d n e m hn he hm hpn hpe hpm
  exact ⟨ok, d', h, ht⟩

/-- C1 on the examples of the specification: name `"A"` and a 9-character
message give the length errors, name `"Al"` and a 10-character message give no
error, and an empty name gives the required error. -/
theorem validateForm_errorTexts_witness :
    (∃ ok d', validateForm (newFormData (contactDoc (utf16 "A") (utf16 "a@b.co") (utf16 "123456789")) 0)
        (contactDoc (utf16 "A") (utf16 "a@b.co") (utf16 "123456789")) = .ok (ok, d') ∧
      errorText d' (utf16 "name") = some (utf16 "Name must be at least 2 characters") ∧
      errorText d' (utf16 "email") = some (utf16 "") ∧
      errorText d' (utf16 "message") = some (utf16 "Message must be at least 10 characters")) ∧
    (∃ ok d', validateForm (newFormData (contactDoc (utf16 "Al") (utf16 "a@b.co") (utf16 "1234567890")) 0)
        (contactDoc (utf16 "Al") (utf16 "a@b.co") (utf16 "1234567890")) = .ok (ok, d') ∧
      errorText d' (utf16 "name") = some (utf16 "") ∧
      errorText d' (utf16 "email") = some (utf16 "") ∧
      errorText d' (utf16 "message") = some (utf16 "")) ∧
    (∃ ok d', validateForm (newFormData (contactDoc (utf16 "") (utf16 "a@b") (utf16 " ")) 0)
        (contactDoc (utf16 "") (utf16 "a@b") (utf16 " ")) = .ok (ok, d') ∧
      errorText d' (utf16 "name") = some (utf16 "Name is required") ∧
      errorText d' (utf16 "email") = some (utf16 "Please enter a valid email address") ∧
      errorText d' (utf16 "message") = some (utf16 "Message is required")) := by
  refine ⟨?_, ?_, ?_⟩
  · obtain ⟨ok, d', h, h1, h2, h3⟩ := validateForm_errorTexts
      (newFormData (contactDoc (utf16 "A") (utf16 "a@b.co") (utf16 "123456789")) 0)
      (contactDoc (utf16 "A") (utf16 "a@b.co") (utf16 "123456789"))
      (utf16 "A") (utf16 "a@b.co") (utf16 "123456789")
      (by decide) (by decide) (by decide) (by decide) (by decide) (by decide)
    exact ⟨ok, d', h, h1.trans (by decide), h2.trans (by decide), h3.trans (by decide)⟩
  · obtain ⟨ok, d', h, h1, h2, h3⟩ := validateForm_errorTexts
      (newFormData (contactDoc (utf16 "Al") (utf16 "a@b.co") (utf16 "1234567890")) 0)
      (contactDoc (utf16 "Al") (utf16 "a@b.co") (utf16 "1234567890"))
      (utf16 "Al") (utf16 "a@b.co") (utf16 "1234567890")
      (by decide) (by decide) (by decide) (by decide) (by decide) (by decide)
    exact ⟨ok, d', h, h1.trans (by decide), h2.trans (by decide), h3.trans (by decide)⟩
  · obtain ⟨ok, d', h, h1, h2, h3⟩ := validateForm_errorTexts
      (newFormData (contactDoc (utf16 "") (utf16 "a@b") (utf16 " ")) 0)
      (contactDoc (utf16 "") (utf16 "a@b") (utf16 " "))
      (utf16 "") (utf16 "a@b") (utf16 " ")
      (by decide) (by decide) (by decide) (by decide) (by decide) (by decide)
    exact ⟨ok, d', h, h1.trans (by decide), h2.trans (by decide), h3.trans (by decide)⟩

/-! ## C7: blur validation -/

theorem truthy_iff (v : JSString) : truthy v = true ↔ v ≠ utf16 "" := by
  cases v <;> simp [truthy, utf16, String.toList]

theorem nameBlur_errorText (this : Nat) (d : Document) (hp : FieldPresent d (utf16 "name")) :
    errorText (nameBlur this d) (utf16 "name") = some
      (if trim (thisValue d this) = utf16 "" then utf16 ""
       else nameRule (trim (thisValue d this))) := by
  unfold nameBlur nameRule
  by_cases h0 : trim (thisValue d this) = utf16 ""
  · have ht : truthy (utf16 "") = false := rfl
    simp [h0, ht, clearError_errorText _ _ _ hp]
  · have ht := (truthy_iff _).mpr h0
    by_cases h1 : (trim (thisValue d this)).length < 2
    · simp [h0, ht, h1, showError_errorText _ _ _ _ hp]
    · simp [h0, ht, h1, clearError_errorText _ _ _ hp]

theorem emailBlur_errorText (this : Nat) (d : Document) (hp : FieldPresent d (utf16 "email")) :
    errorText (emailBlur this d) (utf16 "email") = some
      (if trim (thisValue d this) = utf16 "" then utf16 ""
       else emailRule (trim (thisValue d this))) := by
  unfold emailBlur emailRule
  by_cases h0 : trim (thisValue d this) = utf16 ""
  · have ht : truthy (utf16 "") = false := rfl
    simp [h0, ht, clearError_errorText _ _ _ hp]
  · have ht := (truthy_iff _).mpr h0
    by_cases h1 : isValidEmail (trim (thisValue d this)) = true
    · simp [h0, ht, h1, clearError_errorText _ _ _ hp]
    · have h1' : isValidEmail (trim (thisValue d this)) = false := by simpa using h1
      simp [h0, ht, h1', showError_errorText _ _ _ _ hp]

theorem messageBlur_errorText (this : Nat) (d : Document)
    (hp : FieldPresent d (utf16 "message")) :
    errorText (messageBlur this d) (utf16 "message") = some
      (if trim (thisValue d this) = utf16 "" then utf16 ""
       else messageRule (trim (thisValue d this))) := by
  unfold messageBlur messageRule
  by_cases h0 : trim (thisValue d this) = utf16 ""
  · have ht : truthy (utf16 "") = false := rfl
    simp [h0, ht, clearError_errorText _ _ _ hp]
  · have ht := (truthy_iff _).mpr h0
    by_cases h1 : (trim (thisValue d this)).length < 10
    · simp [h0, ht, h1, showError_errorText _ _ _ _ hp]
    · simp [h0, ht, h1, clearError_errorText _ _ _ hp]

/-- C7, as amended: with the three fields present and form data holding the
values `n`, `e`, `m`, `validateForm` returns, and for each field the error text
after a blur on an input holding the field's value equals the error text
`validateForm` leaves for it whenever the trimmed value is non-empty; when
the trimmed value is empty the blur listener leaves the empty error text. -/
theorem blur_errorText_vs_validateForm (fd : FormData) (d : Document) (n e m : JSString)
    (hn : fd.get (utf16 "name") = some n) (he : fd.get (utf16 "email") = some e)
    (hm : fd.get (utf16 "message") = some m)
    (hpn : FieldPresent d (utf16 "name")) (hpe : FieldPresent d (utf16 "email"))
    (hpm : FieldPresent d (utf16 "message")) :
    ∃ ok d', validateForm fd d = .ok (ok, d') ∧
      (∀ this, thisValue d this = n →
        errorText (nameBlur this d) (utf16 "name") =
          if trim n = utf16 "" then some (utf16 "") else errorText d' (utf16 "name")) ∧
      (∀ this, thisValue d this = e →
        errorText (emailBlur this d) (utf16 "email") =
          if trim e = utf16 "" then some (utf16 "") else errorText d' (utf16 "email")) ∧
      (∀ this, thisValue d this = m →
        errorText (messageBlur this d) (utf16 "message") =
          if trim m = utf16 "" then some (utf16 "") else errorText d' (utf16 "message")) := by
  obtain ⟨ok, d', h, ⟨h1, h2, h3⟩, -⟩ := validateForm_spec fd d n e m hn he hm hpn hpe hpm
  refine ⟨ok, d', h, ?_, ?_, ?_⟩
  · intro this hv
    rw [nameBlur_errorText this d hpn, hv, h1]
    split <;> rfl
  · intro this hv
    rw [emailBlur_errorText this d hpe, hv, h2]
    split <;> rfl
  · intro this hv
    rw [messageBlur_errorText this d hpm, hv, h3]
    split <;> rfl

/-- C7 on a form holding `"A"`, `"a@b"` and a 9-character message: blur and
submit validation show the same three messages. -/
theorem blur_errorText_vs_validateForm_witness :
    errorText (nameBlur 1 (contactDoc (utf16 "A") (utf16 "a@b") (utf16 "123456789"))) (utf16 "name")
      = some (utf16 "Name must be at least 2 characters") ∧
    errorText (emailBlur 3 (contactDoc (utf16 "A") (utf16 "a@b") (utf16 "123456789"))) (utf16 "email")
      = some (utf16 "Please enter a valid email address") ∧
    errorText (messageBlur 5 (contactDoc (utf16 "A") (utf16 "a@b") (utf16 "123456789")))
      (utf16 "message") = some (utf16 "Message must be at least 10 characters") ∧
    ∃ ok d', validateForm (newFormData (contactDoc (utf16 "A") (utf16 "a@b") (utf16 "123456789")) 0)
        (contactDoc (utf16 "A") (utf16 "a@b") (utf16 "123456789")) = .ok (ok, d') ∧
      errorText d' (utf16 "name") = some (utf16 "Name must be at least 2 characters") ∧
      errorText d' (utf16 "email") = some (utf16 "Please enter a valid email address") ∧
      errorText d' (utf16 "message") = some (utf16 "Message must be at least 10 characters") := by
  obtain ⟨ok, d', h, h1, h2, h3⟩ := blur_errorText_vs_validateForm
    (newFormData (contactDoc (utf16 "A") (utf16 "a@b") (utf16 "123456789")) 0)
    (contactDoc (utf16 "A") (utf16 "a@b") (utf16 "123456789"))
    (utf16 "A") (utf16 "a@b") (utf16 "123456789")
    (by decide) (by decide) (by decide) (by decide) (by decide) (by decide)
  have g1 := h1 1 (by decide)
  have g2 := h2 3 (by decide)
  have g3 := h3 5 (by decide)
  have t1 : trim (utf16 "A") ≠ utf16 "" := by decide
  have t2 : trim (utf16 "a@b") ≠ utf16 "" := by decide
  have t3 : trim (utf16 "123456789") ≠ utf16 "" := by decide
  rw [if_neg t1] at g1
  rw [if_neg t2] at g2
  rw [if_neg t3] at g3
  have b1 : errorText (nameBlur 1 (contactDoc (utf16 "A") (utf16 "a@b") (utf16 "123456789")))
      (utf16 "name") = some (utf16 "Name must be at least 2 characters") := by decide
  have b2 : errorText (emailBlur 3 (contactDoc (utf16 "A") (utf16 "a@b") (utf16 "123456789")))
      (utf16 "email") = some (utf16 "Please enter a valid email address") := by decide
  have b3 : errorText (messageBlur 5 (contactDoc (utf16 "A") (utf16 "a@b") (utf16 "123456789")))
      (utf16 "message") = some (utf16 "Message must be at least 10 characters") := by decide
  exact ⟨b1, b2, b3, ok, d', h, g1.symm.trans b1, g2.symm.trans b2, g3.symm.trans b3⟩

/-- C7 as stated fails on an empty field: the blur listener leaves the empty
error text where `validateForm` shows the required message. -/
theorem blur_empty_no_required_message :
    errorText (nameBlur 1 (contactDoc (utf16 "") (utf16 "") (utf16 ""))) (utf16 "name")
      = some (utf16 "") ∧
    (match validateForm (newFormData (contactDoc (utf16 "") (utf16 "") (utf16 "")) 0)
        (contactDoc (utf16 "") (utf16 "") (utf16 "")) with
      | .ok r => errorText r.2 (utf16 "name")
      | .error _ => none) = some (utf16 "Name is required") ∧
    utf16 "" ≠ utf16 "Name is required" := by
  decide

/-! ## C3: submit -/

theorem map_updateAt_proj {α : Type} (g : Element → α) (n : Nat) (f : Element → Element)
    (hf : ∀ e, g (f e) = g e) (es : List Element) :
    (updateAt n f es).map g = es.map g := by
  induction es generalizing n with
  | nil => simp [updateAt]
  | cons e es ih => cases n <;> simp [updateAt, ih, hf]

theorem findId_map (i : JSString) (f : Element → Element) (hf : ∀ e, (f e).id = e.id)
    (es : List Element) : findId i (es.map f) = findId i es := by
  induction es with
  | nil => rfl
  | cons e es ih => simp [findId, hf, ih]

theorem formReset_getElementById (d : Document) (form : Nat) (i : JSString) :
    (formReset d form).getElementById i = d.getElementById i := by
  unfold formReset Document.getElementById
  simp only
  rw [findId_map]
  intro e
  split <;> rfl

theorem formReset_text (d : Document) (form : Nat) (i : JSString) :
    (formReset d form).text i = d.text i := by
  unfold Document.text Document.elem
  rw [formReset_getElementById]
  cases d.getElementById i with
  | none => rfl
  | some k =>
    simp only [Option.some_bind, Document.node, formReset, List.getElem?_map, Option.map_map]
    congr 1
    funext e
    simp only [Function.comp]
    split <;> rfl

theorem text_update_self (d : Document) (n : Nat) (f : Element → Element)
    (hf : ∀ e, (f e).id = e.id) (i t : JSString) (hi : d.getElementById i = some n)
    (ht : ∀ e, (f e).textContent = t) : (d.update n f).text i = some t := by
  obtain ⟨e0, h0, -⟩ := getElementById_node d i n hi
  rw [text_update d n f hf i, if_pos hi]
  simp [Document.elem, hi, h0, ht]

theorem text_update_other (d : Document) (n : Nat) (f : Element → Element)
    (hf : ∀ e, (f e).id = e.id) (i j : JSString) (hj : d.getElementById j = some n)
    (hij : i ≠ j) : (d.update n f).text i = d.text i := by
  rw [text_update d n f hf i, if_neg]
  intro h
  exact hij (getElementById_inj d i j n h hj)

theorem nameRule_eq_empty (v : JSString) : nameRule v = utf16 "" ↔ 2 ≤ v.length := by
  have h1 : utf16 "Name is required" ≠ utf16 "" := by decide
  have h2 : utf16 "Name must be at least 2 characters" ≠ utf16 "" := by decide
  unfold nameRule
  split_ifs with h h'
  · subst h
    simp [h1]
    decide
  · simp [h2]
    omega
  · simp
    omega

theorem emailRule_eq_empty (v : JSString) : emailRule v = utf16 "" ↔ isValidEmail v = true := by
  have h1 : utf16 "Email is required" ≠ utf16 "" := by decide
  have h2 : utf16 "Please enter a valid email address" ≠ utf16 "" := by decide
  unfold emailRule
  split_ifs with h h'
  · subst h
    simp [h1]
    decide
  · simp [h2, h']
  · simpa using h'

theorem messageRule_eq_empty (v : JSString) : messageRule v = utf16 "" ↔ 10 ≤ v.length := by
  have h1 : utf16 "Message is required" ≠ utf16 "" := by decide
  have h2 : utf16 "Message must be at least 10 characters" ≠ utf16 "" := by decide
  unfold messageRule
  split_ifs with h h'
  · subst h
    simp [h1]
    decide
  · simp [h2]
    omega
  · simp
    omega

theorem setStatus_getElementById (d : Document) (st : Nat) (t : JSString) (c : List JSString)
    (i : JSString) : (d.update st (setStatus t c)).getElementById i = d.getElementById i :=
  getElementById_update d st (setStatus t c) (fun _ => rfl) i

theorem setStatus_text (d : Document) (st : Nat) (t : JSString) (c : List JSString)
    (h : d.getElementById (utf16 "form-status") = some st) :
    (d.update st (setStatus t c)).text (utf16 "form-status") = some t :=
  text_update_self d st (setStatus t c) (fun _ => rfl) _ t h (fun _ => rfl)

theorem setStatus_errorText (d : Document) (st : Nat) (t : JSString) (c : List JSString)
    (g : JSString) (h : d.getElementById (utf16 "form-status") = some st)
    (hg : g ++ utf16 "-error" ≠ utf16 "form-status") :
    errorText (d.update st (setStatus t c)) g = errorText d g :=
  text_update_other d st (setStatus t c) (fun _ => rfl) _ _ h hg

theorem formReset_errorText (d : Document) (form : Nat) (g : JSString) :
    errorText (formReset d form) g = errorText d g :=
  formReset_text d form _

theorem core_map_value (d d' : Document) {α : Type} (g : Element → α)
    (hg : ∀ e, g e.core = g e)
    (h : d'.nodes.map Element.core = d.nodes.map Element.core) :
    d'.nodes.map g = d.nodes.map g := by
  have h' := congrArg (List.map g) h
  simp only [List.map_map] at h'
  have hc : g ∘ Element.core = g := funext hg
  rwa [hc] at h'

theorem initContactForm_status (d : Document) (l : ContactListeners)
    (h : initContactForm d = some l) :
    d.getElementById (utf16 "contact-form") = some l.form ∧
    d.getElementById (utf16 "form-status") = some l.statusElement := by
  unfold initContactForm at h
  split at h
  · rename_i form st h1 h2
    cases h
    exact ⟨h1, h2⟩
  · cases h

theorem submitHandler_valid (form st : Nat) (p : Page) (d1 : Document)
    (h : validateForm (newFormData p.document form) p.document = .ok (true, d1)) :
    submitHandler form st p = .ok
      { p with
        defaultPrevented := true
        document := formReset (d1.update st
          (setStatus (utf16 "Message sent successfully! ✓") [utf16 "form-status", utf16 "success"]))
          form
        timers := p.timers ++ [⟨5000, .clearStatus st⟩] } := by
  simp only [submitHandler, h]

theorem submitHandler_invalid (form st : Nat) (p : Page) (d1 : Document)
    (h : validateForm (newFormData p.document form) p.document = .ok (false, d1)) :
    submitHandler form st p = .ok
      { p with
        defaultPrevented := true
        document := d1.update st
          (setStatus (utf16 "Please fix the errors above") [utf16 "form-status", utf16 "error"])
        timers := p.timers ++ [⟨5000, .clearStatus st⟩] } := by
  simp only [submitHandler, h]

/-- C3: with the submit listener registered, the three fields present and the
form holding the values `n`, `e`, `m`, the listener returns and schedules one
timer of 5000 ms whose callback leaves the status text empty. When the three
trimmed values are valid, the three error texts are empty, the status text
is the success message and every control of the form is back at its default
value. When some trimmed value is invalid, the status text is
`"Please fix the errors above"`, no value changes, and the error texts are
the rule messages (not all empty) before and after the timer fires. -/
theorem submitHandler_outcome (p : Page) (l : ContactListeners) (n e m : JSString)
    (hl : initContactForm p.document = some l)
    (hn : (newFormData p.document l.form).get (utf16 "name") = some n)
    (he : (newFormData p.document l.form).get (utf16 "email") = some e)
    (hm : (newFormData p.document l.form).get (utf16 "message") = some m)
    (hpn : FieldPresent p.document (utf16 "name")) (hpe : FieldPresent p.document (utf16 "email"))
    (hpm : FieldPresent p.document (utf16 "message")) :
    ∃ p' t, submitHandler l.form l.statusElement p = .ok p' ∧
      p'.timers = p.timers ++ [t] ∧ t.delay = 5000 ∧
      (t.callback.run p'.document).text (utf16 "form-status") = some (utf16 "") ∧
      (p.timers = [] → (fireTimer p').document.text (utf16 "form-status") = some (utf16 "")) ∧
      (2 ≤ (trim n).length ∧ isValidEmail (trim e) = true ∧ 10 ≤ (trim m).length →
        errorText p'.document (utf16 "name") = some (utf16 "") ∧
        errorText p'.document (utf16 "email") = some (utf16 "") ∧
        errorText p'.document (utf16 "message") = some (utf16 "") ∧
        p'.document.text (utf16 "form-status") = some (utf16 "Message sent successfully! ✓") ∧
        p'.document.nodes.map (·.value) = p.document.nodes.map
          (fun c => if c.formOwner = some l.form then c.defaultValue else c.value)) ∧
      ((trim n).length < 2 ∨ isValidEmail (trim e) = false ∨ (trim m).length < 10 →
        p'.document.text (utf16 "form-status") = some (utf16 "Please fix the errors above") ∧
        p'.document.nodes.map (·.value) = p.document.nodes.map (·.value) ∧
        errorText p'.document (utf16 "name") = some (nameRule (trim n)) ∧
        errorText p'.document (utf16 "email") = some (emailRule (trim e)) ∧
        errorText p'.document (utf16 "message") = some (messageRule (trim m)) ∧
        errorText (t.callback.run p'.document) (utf16 "name") = some (nameRule (trim n)) ∧
        errorText (t.callback.run p'.document) (utf16 "email") = some (emailRule (trim e)) ∧
        errorText (t.callback.run p'.document) (utf16 "message") = some (messageRule (trim m)) ∧
        ¬ (nameRule (trim n) = utf16 "" ∧ emailRule (trim e) = utf16 "" ∧
          messageRule (trim m) = utf16 "")) := by
  obtain ⟨-, hst⟩ := initContactForm_status p.document l hl
  obtain ⟨ok, d1, hv, ⟨h1, h2, h3⟩, hflag, hid, hcore⟩ :=
    validateForm_spec (newFormData p.document l.form) p.document n e m hn he hm hpn hpe hpm
  have hst1 : d1.getElementById (utf16 "form-status") = some l.statusElement := by
    rw [hid]; exact hst
  have g1 : utf16 "name" ++ utf16 "-error" ≠ utf16 "form-status" := by decide
  have g2 : utf16 "email" ++ utf16 "-error" ≠ utf16 "form-status" := by decide
  have g3 : utf16 "message" ++ utf16 "-error" ≠ utf16 "form-status" := by decide
  have hrules : (nameRule (trim n) = utf16 "" ∧ emailRule (trim e) = utf16 "" ∧
      messageRule (trim m) = utf16 "") ↔
      (2 ≤ (trim n).length ∧ isValidEmail (trim e) = true ∧ 10 ≤ (trim m).length) := by
    rw [nameRule_eq_empty, emailRule_eq_empty, messageRule_eq_empty]
  cases ok with
  | true =>
    have hvalid := hrules.mp (hflag.mp rfl)
    have hr := hflag.mp rfl
    refine ⟨_, ⟨5000, .clearStatus l.statusElement⟩,
      submitHandler_valid l.form l.statusElement p d1 hv, rfl, rfl, ?_, ?_, ?_, ?_⟩
    · exact setStatus_text _ _ _ _
        (by rw [formReset_getElementById, setStatus_getElementById]; exact hst1)
    · intro ht
      simp only [fireTimer, ht, List.nil_append]
      exact setStatus_text _ _ _ _
        (by rw [formReset_getElementById, setStatus_getElementById]; exact hst1)
    · intro _
      refine ⟨?_, ?_, ?_, ?_, ?_⟩
      · rw [formReset_errorText, setStatus_errorText _ _ _ _ _ hst1 g1, h1, hr.1]
      · rw [formReset_errorText, setStatus_errorText _ _ _ _ _ hst1 g2, h2, hr.2.1]
      · rw [formReset_errorText, setStatus_errorText _ _ _ _ _ hst1 g3, h3, hr.2.2]
      · rw [formReset_text]
        exact setStatus_text _ _ _ _ hst1
      · simp only [formReset, Document.update, List.map_map]
        have e1 : ((fun x : Element => x.value) ∘ fun c : Element =>
            if c.formOwner = some l.form then { c with value := c.defaultValue } else c)
            = fun c : Element => if c.formOwner = some l.form then c.defaultValue else c.value := by
          funext c
          simp only [Function.comp]
          split <;> rfl
        rw [e1]
        refine (map_updateAt_proj _ _ _ ?_ _).trans (core_map_value p.document d1 _ ?_ hcore)
        · intro c; rfl
        · intro c; rfl
    · intro hinv
      exfalso
      rcases hinv with h | h | h
      · omega
      · rw [hvalid.2.1] at h; cases h
      · omega
  | false =>
    have hnot : ¬ (nameRule (trim n) = utf16 "" ∧ emailRule (trim e) = utf16 "" ∧
        messageRule (trim m) = utf16 "") := fun h => by
      have := hflag.mpr h
      cases this
    refine ⟨_, ⟨5000, .clearStatus l.statusElement⟩,
      submitHandler_invalid l.form l.statusElement p d1 hv, rfl, rfl, ?_, ?_, ?_, ?_⟩
    · exact setStatus_text _ _ _ _ (by rw [setStatus_getElementById]; exact hst1)
    · intro ht
      simp only [fireTimer, ht, List.nil_append]
      exact setStatus_text _ _ _ _ (by rw [setStatus_getElementById]; exact hst1)
    · intro hvalid
      exact absurd (hrules.mpr hvalid) hnot
    · intro _
      have hst2 : (d1.update l.statusElement (setStatus (utf16 "Please fix the errors above")
          [utf16 "form-status", utf16 "error"])).getElementById (utf16 "form-status")
          = some l.statusElement := by
        rw [setStatus_getElementById]; exact hst1
      refine ⟨setStatus_text _ _ _ _ hst1, ?_, ?_, ?_, ?_, ?_, ?_, ?_, hnot⟩
      · simp only [Document.update]
        refine (map_updateAt_proj _ _ _ ?_ _).trans (core_map_value p.document d1 _ ?_ hcore)
        · intro c; rfl
        · intro c; rfl
      · rw [setStatus_errorText _ _ _ _ _ hst1 g1, h1]
      · rw [setStatus_errorText _ _ _ _ _ hst1 g2, h2]
      · rw [setStatus_errorText _ _ _ _ _ hst1 g3, h3]
      · show errorText (Document.update _ _ _) _ = _
        rw [setStatus_errorText _ _ _ _ _ hst2 g1, setStatus_errorText _ _ _ _ _ hst1 g1, h1]
      · show errorText (Document.update _ _ _) _ = _
        rw [setStatus_errorText _ _ _ _ _ hst2 g2, setStatus_errorText _ _ _ _ _ hst1 g2, h2]
      · show errorText (Document.update _ _ _) _ = _
        rw [setStatus_errorText _ _ _ _ _ hst2 g3, setStatus_errorText _ _ _ _ _ hst1 g3, h3]

/-- C3 on a valid form (`"Al"`, `"a@b.co"`, a 10-character message): the
listener returns, shows the success status and no field error, and the
timer callback empties the status. -/
theorem submitHandler_outcome_witness :
    ∃ p' t, submitHandler 0 7
        { document := contactDoc (utf16 "Al") (utf16 "a@b.co") (utf16 "1234567890") } = .ok p' ∧
      p'.timers = [t] ∧ t.delay = 5000 ∧
      (t.callback.run p'.document).text (utf16 "form-status") = some (utf16 "") ∧
      errorText p'.document (utf16 "name") = some (utf16 "") ∧
      errorText p'.document (utf16 "email") = some (utf16 "") ∧
      errorText p'.document (utf16 "message") = some (utf16 "") ∧
      p'.document.text (utf16 "form-status") = some (utf16 "Message sent successfully! ✓") := by
  obtain ⟨p', t, h, ht, hd, hrun, -, hvalid, -⟩ := submitHandler_outcome
    { document := contactDoc (utf16 "Al") (utf16 "a@b.co") (utf16 "1234567890") }
    ⟨0, 7, some 1, some 3, some 5⟩ (utf16 "Al") (utf16 "a@b.co") (utf16 "1234567890")
    (by decide) (by decide) (by decide) (by decide) (by decide) (by decide) (by decide)
  obtain ⟨e1, e2, e3, e4, -⟩ := hvalid (by decide)
  exact ⟨p', t, h, ht, hd, hrun, e1, e2, e3, e4⟩

/-! ## C9: mobile menu -/

theorem mem_classToggle (cl : List JSString) (c x : JSString) :
    x ∈ classToggle cl c ↔ if x = c then c ∉ cl else x ∈ cl := by
  unfold classToggle classRemove
  by_cases hc : c ∈ cl
  · by_cases hx : x = c
    · subst hx
      simp [hc]
    · simp [hc, hx]
  · by_cases hx : x = c
    · subst hx
      simp [hc]
    · simp [hc, hx]

theorem classContains_toggle_self (cl : List JSString) (c : JSString) :
    classContains (classToggle cl c) c = !classContains cl c := by
  have h := mem_classToggle cl c c
  simp only [if_true] at h
  unfold classContains
  by_cases hc : c ∈ cl
  · have : c ∉ classToggle cl c := fun h' => (h.mp h') hc
    simp [hc, this]
  · have : c ∈ classToggle cl c := h.mpr hc
    simp [hc, this]

theorem classContains_toggle_twice (cl : List JSString) (c x : JSString) :
    classContains (classToggle (classToggle cl c) c) x = classContains cl x := by
  have h : x ∈ classToggle (classToggle cl c) c ↔ x ∈ cl := by
    rw [mem_classToggle]
    by_cases hx : x = c
    · subst hx
      simp only [if_true, mem_classToggle, not_not]
    · simp only [hx, if_false, mem_classToggle]
  unfold classContains
  by_cases hc : x ∈ cl
  · simp [hc, h.mpr hc]
  · have : x ∉ classToggle (classToggle cl c) c := fun h' => hc (h.mp h')
    simp [hc, this]

theorem mobileToggleClick_node (navToggle navMenu : Nat) (d : Document) (k : Nat)
    (hne : navToggle ≠ navMenu) (hk : k = navToggle ∨ k = navMenu) :
    (mobileToggleClick navToggle navMenu d).node k =
      (d.node k).map (fun e => { e with classList := classToggle e.classList (utf16 "active") }) := by
  unfold mobileToggleClick
  simp only [node_update]
  rcases hk with rfl | rfl
  · simp [hne]
  · simp [Ne.symm hne]

theorem initMobileMenu_nodes (d : Document) (navToggle navMenu : Nat)
    (h : initMobileMenu d = some (navToggle, navMenu)) :
    d.getElementById (utf16 "nav-toggle") = some navToggle ∧
    d.getElementById (utf16 "nav-menu") = some navMenu := by
  unfold initMobileMenu at h
  split at h
  · rename_i a b h1 h2
    cases h
    exact ⟨h1, h2⟩
  · cases h

/-- C9: when the click listener of the mobile toggle is registered, for each
of the toggle button and the menu panel one click inverts the presence of the
`"active"` class, and after two clicks the element has exactly the classes
it had at the start. -/
theorem mobileToggleClick_twice (d : Document) (navToggle navMenu : Nat)
    (h : initMobileMenu d = some (navToggle, navMenu)) (k : Nat)
    (hk : k = navToggle ∨ k = navMenu) :
    ∃ e e1 e2, d.node k = some e ∧
      (mobileToggleClick navToggle navMenu d).node k = some e1 ∧
      (mobileToggleClick navToggle navMenu (mobileToggleClick navToggle navMenu d)).node k
        = some e2 ∧
      classContains e1.classList (utf16 "active") = !classContains e.classList (utf16 "active") ∧
      ∀ c, classContains e2.classList c = classContains e.classList c := by
  obtain ⟨ht, hm⟩ := initMobileMenu_nodes d navToggle navMenu h
  have hne : navToggle ≠ navMenu := by
    intro heq
    subst heq
    have := getElementById_inj d _ _ _ ht hm
    revert this
    decide
  have hex : ∃ e, d.node k = some e := by
    rcases hk with rfl | rfl
    · obtain ⟨e, he, -⟩ := getElementById_node d _ _ ht
      exact ⟨e, he⟩
    · obtain ⟨e, he, -⟩ := getElementById_node d _ _ hm
      exact ⟨e, he⟩
  obtain ⟨e, he⟩ := hex
  refine ⟨e, { e with classList := classToggle e.classList (utf16 "active") },
    { e with classList := classToggle (classToggle e.classList (utf16 "active")) (utf16 "active") },
    he, ?_, ?_, ?_, ?_⟩
  · rw [mobileToggleClick_node _ _ _ _ hne hk, he]
    rfl
  · rw [mobileToggleClick_node _ _ _ _ hne hk, mobileToggleClick_node _ _ _ _ hne hk, he]
    rfl
  · exact classContains_toggle_self _ _
  · intro c
    exact classContains_toggle_twice _ _ _

/-- C9 on the menu panel of a page whose menu is open. -/
theorem mobileToggleClick_twice_witness :
    initMobileMenu menuDoc = some (0, 1) ∧
    ∃ e e1 e2, menuDoc.node 1 = some e ∧
      (mobileToggleClick 0 1 menuDoc).node 1 = some e1 ∧
      (mobileToggleClick 0 1 (mobileToggleClick 0 1 menuDoc)).node 1 = some e2 ∧
      classContains e1.classList (utf16 "active") = !classContains e.classList (utf16 "active") ∧
      ∀ c, classContains e2.classList c = classContains e.classList c :=
  ⟨by decide, mobileToggleClick_twice menuDoc 0 1 (by decide) 1 (Or.inr rfl)⟩

/-! ## C10: one-shot reveal -/

theorem observeEntry_eq (p : Page) (entry : Entry) :
    observeEntry p entry =
      if entry.isIntersecting then
        { p with
          document := p.document.update entry.target reveal
          observed := p.observed.filter (fun t => !(t == entry.target)) }
      else p := rfl

theorem classContains_classAdd (cl : List JSString) (c x : JSString) :
    classContains (classAdd cl c) x = (classContains cl x || x == c) := by
  unfold classAdd classContains
  by_cases hc : c ∈ cl
  · by_cases hx : x = c
    · subst hx; simp [hc]
    · simp [hc, hx]
  · by_cases hx : x = c
    · subst hx; simp [hc]
    · simp [hc, hx]

theorem classAdd_classAdd (cl : List JSString) (c : JSString) :
    classAdd (classAdd cl c) c = classAdd cl c := by
  unfold classAdd
  by_cases hc : c ∈ cl
  · simp [hc]
  · simp [hc]

theorem reveal_reveal (e : Element) : reveal (reveal e) = reveal e := by
  simp only [reveal, classAdd_classAdd]

theorem observerCallback_observed (entries : List Entry) (p : Page) :
    (observerCallback entries p).observed =
      p.observed.filter (fun t => !entries.any (fun e => e.isIntersecting && t == e.target)) := by
  unfold observerCallback
  induction entries generalizing p with
  | nil => simp
  | cons e es ih =>
    rw [List.foldl_cons, ih, observeEntry_eq]
    cases he : e.isIntersecting
    · simp [he]
    · simp only [if_true, List.filter_filter, List.any_cons, he, Bool.true_and]
      congr 1
      funext t
      cases (t == e.target) <;> simp

theorem observerCallback_node (entries : List Entry) (p : Page) (t : Nat) :
    (observerCallback entries p).document.node t =
      if entries.any (fun e => e.isIntersecting && t == e.target) = true
      then (p.document.node t).map reveal else p.document.node t := by
  unfold observerCallback
  induction entries generalizing p with
  | nil => simp
  | cons e es ih =>
    rw [List.foldl_cons, ih, observeEntry_eq]
    cases he : e.isIntersecting
    · simp [he]
    · by_cases ht : t = e.target
      · subst ht
        have hrr : reveal ∘ reveal = reveal := funext reveal_reveal
        simp [he, node_update, hrr]
      · have ht' : (t == e.target) = false := by simpa using ht
        simp [he, node_update, ht, ht']

theorem hasFadeIn_mono (entries : List Entry) (p : Page) (t : Nat)
    (h : hasFadeIn p t = true) : hasFadeIn (observerCallback entries p) t = true := by
  unfold hasFadeIn at h ⊢
  rw [observerCallback_node]
  cases hn : p.document.node t with
  | none => simp [hn] at h
  | some e =>
    simp only [hn] at h
    by_cases hany : entries.any (fun e => e.isIntersecting && t == e.target) = true
    · simp only [hany, if_true, Option.map_some']
      simp [reveal, classContains_classAdd, h]
    · simp only [hany]
      simpa using h

theorem additions_pageStates (t : Nat) (batches : List (List Entry)) (p : Page) :
    additions t (pageStates batches p) ≤ 1 ∧
    (hasFadeIn p t = true → additions t (pageStates batches p) = 0) := by
  induction batches generalizing p with
  | nil => simp [pageStates, additions]
  | cons b bs ih =>
    obtain ⟨h1, h2⟩ := ih (observerCallback b p)
    have hunf : additions t (pageStates (b :: bs) p) =
        (if (!hasFadeIn p t && hasFadeIn (observerCallback b p) t) = true then 1 else 0)
          + additions t (pageStates bs (observerCallback b p)) := by
      cases bs <;> rfl
    rw [hunf]
    constructor
    · by_cases hq : hasFadeIn (observerCallback b p) t = true
      · rw [h2 hq]
        split <;> omega
      · have hq' : hasFadeIn (observerCallback b p) t = false := by simpa using hq
        simp [hq', h1]
    · intro hp
      rw [h2 (hasFadeIn_mono b p t hp)]
      simp [hp]

theorem deliverable_cons (p : Page) (entries : List Entry) (rest : List (List Entry))
    (h : deliverable p (entries :: rest) = true) :
    (entries.map (·.target)).Nodup ∧ (∀ e ∈ entries, e.target ∈ p.observed) ∧
    deliverable (observerCallback entries p) rest = true := by
  simp only [deliverable, Bool.and_eq_true, decide_eq_true_eq, List.all_eq_true] at h
  exact ⟨h.1.1, fun e he => by simpa using h.1.2 e he, h.2⟩

theorem countP_target_le_one (entries : List Entry) (t : Nat)
    (h : (entries.map (·.target)).Nodup) :
    entries.countP (fun e => e.isIntersecting && e.target == t) ≤ 1 := by
  induction entries with
  | nil => simp
  | cons e es ih =>
    simp only [List.map_cons, List.nodup_cons, List.mem_map, not_exists, not_and] at h
    rw [List.countP_cons]
    by_cases hp : (e.isIntersecting && e.target == t) = true
    · have ht : e.target = t := by
        simp only [Bool.and_eq_true, beq_iff_eq] at hp
        exact hp.2
      have hz : es.countP (fun e => e.isIntersecting && e.target == t) = 0 := by
        rw [List.countP_eq_zero]
        intro a ha hpa
        simp only [Bool.and_eq_true, beq_iff_eq] at hpa
        exact h.1 a ha (hpa.2.trans ht.symm)
      rw [hz, if_pos hp]
    · rw [if_neg hp]
      exact ih h.2

theorem addCalls_unobserved (t : Nat) (batches : List (List Entry)) (p : Page)
    (hd : deliverable p batches = true) (ht : t ∉ p.observed) : addCalls t batches = 0 := by
  induction batches generalizing p with
  | nil => rfl
  | cons b bs ih =>
    obtain ⟨-, hobs, hrest⟩ := deliverable_cons p b bs hd
    have hz : b.countP (fun e => e.isIntersecting && e.target == t) = 0 := by
      rw [List.countP_eq_zero]
      intro a ha hpa
      simp only [Bool.and_eq_true, beq_iff_eq] at hpa
      exact ht (hpa.2 ▸ hobs a ha)
    have ht' : t ∉ (observerCallback b p).observed := by
      rw [observerCallback_observed]
      intro hmem
      exact ht (List.mem_filter.mp hmem).1
    simp only [addCalls, hz, ih _ hrest ht']

theorem addCalls_le_one (t : Nat) (batches : List (List Entry)) (p : Page)
    (hd : deliverable p batches = true) : addCalls t batches ≤ 1 := by
  induction batches generalizing p with
  | nil => simp [addCalls]
  | cons b bs ih =>
    obtain ⟨hnodup, -, hrest⟩ := deliverable_cons p b bs hd
    have hle := countP_target_le_one b t hnodup
    simp only [addCalls]
    by_cases hpos : 0 < b.countP (fun e => e.isIntersecting && e.target == t)
    · obtain ⟨a, ha, hpa⟩ := List.countP_pos_iff.mp hpos
      simp only [Bool.and_eq_true, beq_iff_eq] at hpa
      have ht' : t ∉ (observerCallback b p).observed := by
        rw [observerCallback_observed]
        intro hmem
        have h2 := (List.mem_filter.mp hmem).2
        have hany : b.any (fun e => e.isIntersecting && t == e.target) = true := by
          rw [List.any_eq_true]
          exact ⟨a, ha, by simp [hpa.1, hpa.2]⟩
        simp [hany] at h2
      rw [addCalls_unobserved t bs _ hrest ht']
      omega
    · have := ih _ hrest
      omega

theorem runBatches_observed (batches : List (List Entry)) (p : Page) :
    (runBatches batches p).observed.Sublist p.observed := by
  unfold runBatches
  induction batches generalizing p with
  | nil => exact List.Sublist.refl _
  | cons b bs ih =>
    rw [List.foldl_cons]
    refine (ih (observerCallback b p)).trans ?_
    rw [observerCallback_observed]
    exact List.filter_sublist _

/-- C10: over every sequence of callback invocations the `"fade-in"` class of a
target goes from absent to present at most once, and when each batch reports
only observed targets, each once, `classList.add` runs at most once per
target. In one invocation a node reported as intersecting has the class
afterwards and is no longer observed; a target with no intersecting entry
keeps its element state and its observed status; and the observed set only
shrinks, in one invocation and over the whole sequence. -/
theorem observer_reveals_once (p : Page) (batches : List (List Entry)) (t : Nat) :
    additions t (pageStates batches p) ≤ 1 ∧
    (deliverable p batches = true → addCalls t batches ≤ 1) ∧
    (∀ entries : List Entry,
      ((∃ e ∈ entries, e.target = t ∧ e.isIntersecting = true) →
        t ∉ (observerCallback entries p).observed ∧
        ((p.document.node t).isSome = true → hasFadeIn (observerCallback entries p) t = true)) ∧
      ((∀ e ∈ entries, e.target = t → e.isIntersecting = false) →
        (observerCallback entries p).document.node t = p.document.node t ∧
        (t ∈ (observerCallback entries p).observed ↔ t ∈ p.observed)) ∧
      (observerCallback entries p).observed.Sublist p.observed) ∧
    (runBatches batches p).observed.Sublist p.observed := by
  refine ⟨(additions_pageStates t batches p).1, addCalls_le_one t batches p, ?_,
    runBatches_observed batches p⟩
  intro entries
  refine ⟨?_, ?_, ?_⟩
  · rintro ⟨e, he, het, hei⟩
    have hany : entries.any (fun e => e.isIntersecting && t == e.target) = true := by
      rw [List.any_eq_true]
      exact ⟨e, he, by simp [hei, het]⟩
    constructor
    · rw [observerCallback_observed]
      intro hmem
      have h2 := (List.mem_filter.mp hmem).2
      simp [hany] at h2
    · intro hsome
      obtain ⟨el, hel⟩ := Option.isSome_iff_exists.mp hsome
      unfold hasFadeIn
      rw [observerCallback_node, if_pos hany, hel]
      simp [reveal, classContains_classAdd]
  · intro hall
    have hany : entries.any (fun e => e.isIntersecting && t == e.target) = false := by
      rw [Bool.eq_false_iff]
      intro h
      rw [List.any_eq_true] at h
      obtain ⟨e, he, hp⟩ := h
      simp only [Bool.and_eq_true, beq_iff_eq] at hp
      have := hall e he hp.2.symm
      rw [hp.1] at this
      cases this
    constructor
    · rw [observerCallback_node, hany]
      simp
    · rw [observerCallback_observed, List.mem_filter, hany]
      simp
  · rw [observerCallback_observed]
    exact List.filter_sublist _

/-- C10 on two cards: the first card enters the viewport, leaves and enters
again; it is reported while observed only, and gets the class once. -/
theorem observer_reveals_once_witness :
    cardsPage.observed = [0, 1] ∧
    deliverable cardsPage [[⟨0, false⟩, ⟨1, false⟩], [⟨0, true⟩], [⟨1, false⟩]] = true ∧
    addCalls 0 [[⟨0, false⟩, ⟨1, false⟩], [⟨0, true⟩], [⟨1, false⟩]] ≤ 1 ∧
    0 ∉ (observerCallback [⟨0, true⟩] cardsPage).observed ∧
    hasFadeIn (observerCallback [⟨0, true⟩] cardsPage) 0 = true :=
  ⟨by decide, by decide,
    (observer_reveals_once cardsPage [[⟨0, false⟩, ⟨1, false⟩], [⟨0, true⟩], [⟨1, false⟩]] 0).2.1
      (by decide),
    (((observer_reveals_once cardsPage [] 0).2.2.1 [⟨0, true⟩]).1
      ⟨⟨0, true⟩, by simp, rfl, rfl⟩).1,
    (((observer_reveals_once cardsPage [] 0).2.2.1 [⟨0, true⟩]).1
      ⟨⟨0, true⟩, by simp, rfl, rfl⟩).2 (by decide)⟩

/-! ## C8: missing elements -/

/-- C8 fails on the code: with the header missing, the click listener of a
navigation link whose target section exists throws; so it does with an open
menu and a missing toggle button; and the submit listener throws when the
form has none of the three inputs. With every element in place the same
click runs to completion. -/
theorem missing_element_throws :
    initSmoothScroll noHeaderDoc = [0] ∧
    noHeaderDoc.getElementById (utf16 "about") = some 1 ∧
    noHeaderDoc.getElementById (utf16 "header") = none ∧
    thrown (navLinkClick 0 { document := noHeaderDoc }) = some JSError.typeError ∧
    noToggleDoc.getElementById (utf16 "nav-toggle") = none ∧
    thrown (navLinkClick 0 { document := noToggleDoc }) = some JSError.typeError ∧
    initContactForm noInputsDoc = some ⟨0, 1, none, none, none⟩ ∧
    thrown (submitHandler 0 1 { document := noInputsDoc }) = some JSError.typeError ∧
    thrown (navLinkClick 0 { document :=
      { nodes := noHeaderDoc.nodes ++ [{ id := utf16 "header" }] } }) = none := by
  decide

end Portfolio
